import Mathlib

/-!
Verification of the LeviatanCode project-introspection pipeline.

The Python sources embedded here are `comprehensive_analyzer.py` (the
"root" analyzer, at the repository root) and
`scripts/comprehensive_analyzer.py` (the "scripts" analyzer).  Pure string
manipulation is translated directly; filesystem traversal is modelled by an
explicit tree value whose child order is the order `os.walk` enumerates
entries; external library calls (`json.loads`, `tomllib.loads`, the two
`re` helpers used with capture groups, `git`) are modelled as oracle inputs
supplied to the pipeline, preserving the surrounding exception-handling
structure of the Python code.
-/

namespace Leviatan

/-! ### Python string primitives, modelled over `String.data` -/

/-- Substring containment on character lists. -/
def subList (needle hay : List Char) : Bool :=
  (List.range (hay.length + 1)).any (fun i => needle.isPrefixOf (hay.drop i))

/-- Python `needle in hay` on strings: substring containment. -/
def strContains (hay needle : String) : Bool :=
  subList needle.data hay.data

/-- Python `s.startswith(p)`. -/
def pyStartsWith (s p : String) : Bool :=
  p.data.isPrefixOf s.data

/-- Python `s.endswith(p)`. -/
def pyEndsWith (s p : String) : Bool :=
  p.data.isSuffixOf s.data

/-- Python `s.endswith((p1, p2, ...))`. -/
def pyEndsWithAny (s : String) (ps : List String) : Bool :=
  ps.any (pyEndsWith s)

/-- Python `s.lower()` (ASCII-adequate for the analyzer's inputs). -/
def pyLower (s : String) : String :=
  ⟨s.data.map Char.toLower⟩

/-- Python `s.strip()`. -/
def pyStrip (s : String) : String :=
  ⟨((s.data.dropWhile Char.isWhitespace).reverse.dropWhile Char.isWhitespace).reverse⟩

/-- Python `pathlib.PurePath(name).suffix`: the extension from the last dot,
empty when the dot is leading or trailing or absent. -/
def pySuffix (name : String) : String :=
  let cs := name.data
  let idxs := (List.range cs.length).filter (fun i => cs.getD i ' ' == '.')
  match idxs.getLast? with
  | some i => if 0 < i && i + 1 < cs.length then ⟨cs.drop i⟩ else ""
  | none => ""

/-- Python `len(s.splitlines())` for newline-terminated text
(the analyzer only counts the result). -/
def pyLineCount (s : String) : Nat :=
  if s.data.isEmpty then 0
  else s.data.count '\n' + (if s.data.getLast? == some '\n' then 0 else 1)

/-- Python `s.splitlines()` for `\n`-separated text. -/
def pySplitlines (s : String) : List String :=
  if s.data.isEmpty then []
  else
    let parts := (s.data.splitOnP (· == '\n')).map (fun cs => (⟨cs⟩ : String))
    if s.data.getLast? == some '\n' then parts.dropLast else parts

/-- Python `s.split(None)`-style whitespace split (used for `line.split()`):
maximal runs of non-whitespace characters. -/
def pySplitWs (s : String) : List String :=
  ((s.data.splitOnP Char.isWhitespace).filter (fun cs => !cs.isEmpty)).map
    (fun cs => (⟨cs⟩ : String))

/-- Index of the first occurrence of `needle` in `hay`, if any. -/
def firstIndexOf (hay needle : List Char) : Option Nat :=
  (List.range (hay.length + 1)).find? (fun i => needle.isPrefixOf (hay.drop i))

/-- Python `s.split(sep, 1)`: split at the first occurrence of `sep`,
returning the pair of pieces (whole string and `""` when `sep` is absent). -/
def pySplit1 (s sep : String) : String × String :=
  match firstIndexOf s.data sep.data with
  | some i => (⟨s.data.take i⟩, ⟨s.data.drop (i + sep.data.length)⟩)
  | none => (s, "")

/-- Python `s.strip('\x27"')`: strip quote characters from both ends. -/
def pyStripQuotes (s : String) : String :=
  let quote : Char → Bool := fun c => c == '"' || c == Char.ofNat 39
  ⟨((s.data.dropWhile quote).reverse.dropWhile quote).reverse⟩

/-! ### Python dict as an insertion-ordered association list -/

/-- Python `d[k] = v`: replace in place when the key exists, append otherwise. -/
def dictInsert (d : List (String × α)) (k : String) (v : α) : List (String × α) :=
  if d.any (fun p => p.1 == k) then
    d.map (fun p => if p.1 == k then (k, v) else p)
  else d ++ [(k, v)]

/-- Python `d.get(k, default)`. -/
def dictGetD (d : List (String × α)) (k : String) (default : α) : α :=
  (d.lookup k).getD default

/-- Python `d[k] = d.get(k, 0) + 1`. -/
def bumpCount (d : List (String × Nat)) (k : String) : List (String × Nat) :=
  dictInsert d k (dictGetD d k 0 + 1)

/-! ### Filesystem model

An `Entry` is one directory member.  The list order of children is the
order in which `os.walk` enumerates them on the (unchanged) tree.
`statOk` models whether `Path.stat()` succeeds, `readOk` whether
`Path.read_text()` succeeds; `content` is the decoded text when readable. -/

structure FileNode where
  name : String
  statOk : Bool
  size : Nat
  mtime : Nat
  readOk : Bool
  content : String

inductive Entry where
  | file (f : FileNode)
  | dir (name : String) (children : List Entry)

/-- Join path components with `"/"`. -/
def joinComps : List String → String
  | [] => ""
  | [x] => x
  | x :: xs => x ++ "/" ++ joinComps xs

/-- Relative path of a file, as `str(file_path.relative_to(project_path))`
produces it on a POSIX system. -/
def joinPath (relDir : List String) (name : String) : String :=
  joinComps (relDir ++ [name])

/-! ### Scan state: the slice of `insights_data` that
`scan_comprehensive_files` fills in -/

structure FileInfo where
  size : Nat
  lines : Nat
  extension : String
  language : String
  modified : Nat

structure ImportantInfo where
  ftype : String
  size : Nat
  modified : Nat

structure ScanState where
  fileCount : Nat := 0
  totalLines : Nat := 0
  fileTypes : List (String × Nat) := []
  importantFiles : List (String × ImportantInfo) := []
  configFiles : List String := []
  mainEntryPoints : List String := []
  testFiles : List String := []
  documentationFiles : List String := []
  fileStructure : List (String × FileInfo) := []
  stopped : Bool := false

def initScan : ScanState := {}

/-! ### Generic `os.walk` traversal

`os.walk` is top-down: a directory's files are processed before its
(ignore-filtered) subdirectories are recursed into, in enumeration order.
`pre` models the per-directory steps that the loop body runs before the
inner file loop (the depth `continue` and the file-cap `break` in the root
analyzer); a `stopped` state models `break` having terminated the walk. -/

inductive PreStep where
  | skip (s : ScanState)
  | go (s : ScanState)

/-- Process the file members of one directory listing, in order. -/
def filesPass (proc : List String → ScanState → FileNode → ScanState)
    (relDir : List String) (es : List Entry) (s : ScanState) : ScanState :=
  es.foldl (fun s e => match e with
    | .file f => proc relDir s f
    | .dir _ _ => s) s

mutual

/-- Visit one directory: run the pre-loop steps, then its files, then its
subdirectories. -/
def walkDir (pre : List String → ScanState → PreStep)
    (gate : String → Bool)
    (proc : List String → ScanState → FileNode → ScanState)
    (relDir : List String) (es : List Entry) (s : ScanState) : ScanState :=
  match pre relDir s with
  | .skip s' => s'
  | .go s' => walkSubdirs pre gate proc relDir es (filesPass proc relDir es s')
termination_by (sizeOf es, 1)

/-- Recurse into the subdirectory members whose names pass the ignore
filter (`gate n = true` means `n` is in the ignore set). -/
def walkSubdirs (pre : List String → ScanState → PreStep)
    (gate : String → Bool)
    (proc : List String → ScanState → FileNode → ScanState)
    (relDir : List String) (es : List Entry) (s : ScanState) : ScanState :=
  match es with
  | [] => s
  | .file _ :: rest => walkSubdirs pre gate proc relDir rest s
  | .dir n c :: rest =>
      let s' := if gate n then s else walkDir pre gate proc (relDir ++ [n]) c s
      walkSubdirs pre gate proc relDir rest s'
termination_by (sizeOf es, 0)

end

/-! ### Static configuration shared by the per-file processing
(`scan_comprehensive_files` of both analyzer versions) -/

/-- Python `analyzable_extensions` of `is_analyzable_file` (identical in both
versions). -/
def analyzableExtensions : List String :=
  [".js", ".ts", ".jsx", ".tsx", ".py", ".java", ".cpp", ".c", ".h",
   ".cs", ".php", ".rb", ".go", ".rs", ".swift", ".kt", ".scala",
   ".css", ".scss", ".sass", ".less", ".html", ".htm", ".xml", ".svg",
   ".json", ".md", ".txt", ".yaml", ".yml", ".toml", ".ini", ".conf",
   ".config", ".sql", ".sh", ".bat", ".ps1", ".cmd", ".dockerfile",
   ".vue", ".svelte", ".elm", ".clj", ".hs", ".ml", ".fs", ".dart",
   ".r", ".jl", ".lua", ".pl", ".tcl", ".vim", ".tex"]

/-- Python `is_analyzable_file`, as a predicate on the file's name (the only part
of the path it inspects). -/
def isAnalyzableFile (name : String) : Bool :=
  analyzableExtensions.contains (pyLower (pySuffix name)) ||
    ["dockerfile", "makefile", "rakefile", "gemfile"].contains (pyLower name)

/-- Python `entry_point_patterns` (identical in both versions). -/
def entryPointPatterns : List String :=
  ["index.js", "index.ts", "main.py", "app.py", "server.js",
   "main.js", "main.ts", "App.js", "App.tsx", "main.go",
   "main.java", "Program.cs", "main.cpp", "main.c"]

/-- Python `detect_file_language`'s `language_map` (identical in both versions). -/
def languageMap : List (String × String) :=
  [(".js", "JavaScript"), (".ts", "TypeScript"), (".jsx", "JavaScript"),
   (".tsx", "TypeScript"), (".py", "Python"), (".java", "Java"),
   (".cpp", "C++"), (".c", "C"), (".h", "C/C++"), (".cs", "C#"),
   (".php", "PHP"), (".rb", "Ruby"), (".go", "Go"), (".rs", "Rust"),
   (".swift", "Swift"), (".kt", "Kotlin"), (".scala", "Scala"),
   (".css", "CSS"), (".scss", "SCSS"), (".sass", "Sass"), (".less", "Less"),
   (".html", "HTML"), (".htm", "HTML"), (".xml", "XML"), (".svg", "SVG"),
   (".json", "JSON"), (".yaml", "YAML"), (".yml", "YAML"), (".toml", "TOML"),
   (".sql", "SQL"), (".sh", "Shell"), (".bat", "Batch"), (".ps1", "PowerShell")]

/-- Python `detect_file_language`. -/
def detectFileLanguage (extension : String) : String :=
  dictGetD languageMap (pyLower extension) "Unknown"

/-- Python `ignore_patterns` of the root analyzer (`comprehensive_analyzer.py`). -/
def ignorePatternsRoot : List String :=
  ["node_modules", ".git", "__pycache__", ".venv", "venv", "env",
   "dist", "build", ".next", "target", "bin", "obj", "out",
   ".idea", ".vscode", ".vs", ".nyc_output", "coverage",
   "site-packages", "lib", "lib64", "include", "Scripts", "pyvenv.cfg",
   "logs", "temp", "tmp", ".temp", ".tmp", "uploads", ".pytest_cache",
   "*.pyc", "*.log", "*.tmp", "*.cache", "*.lock", "*.pyo", "*.pyd"]

/-- Python `ignore_patterns` of the scripts analyzer
(`scripts/comprehensive_analyzer.py`). -/
def ignorePatternsScripts : List String :=
  ["node_modules", ".git", "__pycache__", ".venv", "venv", "env",
   "dist", "build", ".next", "target", "bin", "obj", "out",
   ".idea", ".vscode", ".vs", ".nyc_output", "coverage",
   "logs", "uploads", "migrations"]

/-- Python `important_files` of the root analyzer. -/
def importantFilesRoot : List String :=
  ["package.json", "requirements.txt", "pom.xml", "build.gradle",
   "Cargo.toml", "go.mod", "composer.json", "Gemfile",
   "setup.py", "pyproject.toml", "CMakeLists.txt", "Makefile",
   "Dockerfile", "docker-compose.yml", ".env", ".env.example",
   "README.md", "README.txt", "CHANGELOG.md", "LICENSE",
   "tsconfig.json", "babel.config.js", "webpack.config.js",
   "vite.config.js", "rollup.config.js", "jest.config.js"]

/-- Python `important_files` of the scripts analyzer. -/
def importantFilesScripts : List String :=
  importantFilesRoot ++
    ["tailwind.config.js", "postcss.config.js", "drizzle.config.ts",
     "components.json", "replit.md"]

/-- The file-skip test inside the `for file in files` loop:
`any(pattern in file for pattern in ignore_patterns if '*' not in pattern)`. -/
def fileSkipped (ignorePatterns : List String) (name : String) : Bool :=
  ignorePatterns.any (fun p => !strContains p "*" && strContains name p)

/-! ### Per-file processing bodies

Each statement of the `for file in files` loop body is one named state
update, composed in program order. -/

/-- Python `fileTypes[ext] = fileTypes.get(ext, 0) + 1`. -/
def recordFileType (ext : String) (s : ScanState) : ScanState :=
  { s with fileTypes := bumpCount s.fileTypes ext }

/-- Python steps recording an important file: set the metadata record
under `importantFiles[rel]` and run `configFiles.append(rel)`. -/
def recordImportant (importantFiles : List String) (f : FileNode)
    (rel : String) (s : ScanState) : ScanState :=
  if importantFiles.contains f.name then
    { s with
      importantFiles :=
        dictInsert s.importantFiles rel ⟨"configuration", f.size, f.mtime⟩,
      configFiles := s.configFiles ++ [rel] }
  else s

/-- Python `if file in entry_point_patterns: mainEntryPoints.append(rel)`. -/
def recordEntryPoint (f : FileNode) (rel : String) (s : ScanState) : ScanState :=
  if entryPointPatterns.contains f.name then
    { s with mainEntryPoints := s.mainEntryPoints ++ [rel] }
  else s

/-- Python `if <test rule>: testFiles.append(rel)`; the rule differs between the
two versions and is passed in evaluated. -/
def recordTest (isTest : Bool) (rel : String) (s : ScanState) : ScanState :=
  if isTest then { s with testFiles := s.testFiles ++ [rel] } else s

/-- Python `if file.lower().endswith(<doc suffixes>):
documentationFiles.append(rel)`. -/
def recordDoc (isDoc : Bool) (rel : String) (s : ScanState) : ScanState :=
  if isDoc then { s with documentationFiles := s.documentationFiles ++ [rel] }
  else s

/-- The `if self.is_analyzable_file(...)` tail of the loop body: count the
lines and record `fileStructure[rel]` for readable analyzable files (an
unreadable analyzable file hits `continue` and is not counted at all),
then `file_count += 1`. -/
def recordAnalyzed (rel ext : String) (f : FileNode) (s : ScanState) :
    ScanState :=
  if isAnalyzableFile f.name then
    if f.readOk then
      let lines := pyLineCount f.content
      let s := { s with
        totalLines := s.totalLines + lines,
        fileStructure := dictInsert s.fileStructure rel
          ⟨f.size, lines, ext, detectFileLanguage ext, f.mtime⟩ }
      { s with fileCount := s.fileCount + 1 }
    else s
  else { s with fileCount := s.fileCount + 1 }

/-- The body of the `for file in files` loop of the scripts analyzer
(`scripts/comprehensive_analyzer.py`, lines 160-213). -/
def processFileScripts (relDir : List String) (s : ScanState) (f : FileNode) :
    ScanState :=
  if fileSkipped ignorePatternsScripts f.name then s
  else if !f.statOk then s
  else
    let rel := joinPath relDir f.name
    let ext := pyLower (pySuffix f.name)
    recordAnalyzed rel ext f
      (recordDoc
        (pyEndsWithAny (pyLower f.name) [".md", ".txt", ".rst", ".adoc", ".doc"])
        rel
        (recordTest
          (strContains (pyLower rel) "test" ||
            pyEndsWithAny (pyLower f.name)
              [".test.js", ".test.ts", ".spec.js", ".spec.ts", "_test.py"] ||
            strContains (pyLower f.name) "test")
          rel
          (recordEntryPoint f rel
            (recordImportant importantFilesScripts f rel
              (recordFileType ext s)))))

/-- The body of the `for file in files` loop of the root analyzer
(`comprehensive_analyzer.py`, lines 172-226).  It differs from the scripts
version in the ignore set, the important-file set, the test-file rule (no
bare `'test' in file` clause and no `_test.py` suffix) and the
documentation suffixes (no `.doc`). -/
def processFileRoot (relDir : List String) (s : ScanState) (f : FileNode) :
    ScanState :=
  if fileSkipped ignorePatternsRoot f.name then s
  else if !f.statOk then s
  else
    let rel := joinPath relDir f.name
    let ext := pyLower (pySuffix f.name)
    recordAnalyzed rel ext f
      (recordDoc
        (pyEndsWithAny (pyLower f.name) [".md", ".txt", ".rst", ".adoc"])
        rel
        (recordTest
          (strContains (pyLower rel) "test" ||
            pyEndsWithAny (pyLower f.name)
              [".test.js", ".test.ts", ".spec.js", ".spec.ts"])
          rel
          (recordEntryPoint f rel
            (recordImportant importantFilesRoot f rel
              (recordFileType ext s)))))

/-! ### The two scan functions -/

/-- The scripts analyzer has no pre-loop step: every visited directory is
processed. -/
def preScripts : List String → ScanState → PreStep := fun _ s => .go s

/-- The root analyzer's pre-loop steps (`comprehensive_analyzer.py`, lines
161-170): skip directories deeper than depth 6 (`continue`), and terminate
the whole walk once more than `max_files = 5000` files were counted
(`break`, modelled by the persistent `stopped` flag checked on every later
directory visit). -/
def preRoot : List String → ScanState → PreStep := fun relDir s =>
  if s.stopped then .skip s
  else if relDir.length > 6 then .skip s
  else if s.fileCount > 5000 then .skip { s with stopped := true }
  else .go s

/-- Python `scan_comprehensive_files` of the scripts analyzer, on the children of
the project root. -/
def scanScripts (t : List Entry) : ScanState :=
  walkDir preScripts (ignorePatternsScripts.contains ·) processFileScripts [] t initScan

/-- Python `scan_comprehensive_files` of the root analyzer. -/
def scanRoot (t : List Entry) : ScanState :=
  walkDir preRoot (ignorePatternsRoot.contains ·) processFileRoot [] t initScan

/-! ### Regular-expression matching

`detect_comprehensive_technologies` calls
`re.search(pattern, search_text, re.IGNORECASE | re.MULTILINE)`.  The
patterns in the two technology tables use only literal characters
(including escaped `\.`, `\(`, `\)`), `.`, `.*`, a trailing `$`, and one
`<?` (in the PHP pattern); `RTok` covers exactly that subset.  Without
`re.DOTALL`, `.` does not match a newline; with `re.MULTILINE`, `$`
matches at the end of the text or before a newline; `re.IGNORECASE` is
modelled by case-folded character comparison. -/

inductive RTok where
  | lit (c : Char)
  | dot
  | dotStar
  | optChar (c : Char)
  | eol

/-- Case-insensitive character comparison. -/
def charIEq (a b : Char) : Bool := a.toLower == b.toLower

/-- Does the token list match a prefix of `cs`?  Every recursive call
strictly decreases `|ts| + |cs|`, so that quantity (plus one) is supplied
as structural fuel, which keeps the matcher reducible by plain kernel
computation; the `0`-fuel arm is never reached. -/
def rmatchF : Nat → List RTok → List Char → Bool
  | 0, _, _ => false
  | fuel + 1, ts, cs =>
    match ts, cs with
    | [], _ => true
    | .lit c :: ts', d :: cs' => charIEq c d && rmatchF fuel ts' cs'
    | .lit _ :: _, [] => false
    | .dot :: ts', d :: cs' => d != '\n' && rmatchF fuel ts' cs'
    | .dot :: _, [] => false
    | .dotStar :: ts', cs =>
        rmatchF fuel ts' cs ||
          (match cs with
           | d :: cs' => d != '\n' && rmatchF fuel (.dotStar :: ts') cs'
           | [] => false)
    | .optChar c :: ts', cs =>
        (match cs with
         | d :: cs' => charIEq c d && rmatchF fuel ts' cs'
         | [] => false) || rmatchF fuel ts' cs
    | .eol :: ts', cs => (cs.isEmpty || cs.head? == some '\n') && rmatchF fuel ts' cs

def rmatch (ts : List RTok) (cs : List Char) : Bool :=
  rmatchF (ts.length + cs.length + 1) ts cs

/-- Python `re.search`: match at any start position (`None`-ness only). -/
def rsearch (ts : List RTok) (s : String) : Bool :=
  s.data.tails.any (rmatch ts)

/-- A run of literal tokens. -/
def lits (s : String) : List RTok := s.data.map RTok.lit

/-! ### Sorting (`sorted(list(detected))`) -/

/-- Code-point lexicographic strict order on character lists. -/
def strLtB : List Char → List Char → Bool
  | [], [] => false
  | [], _ :: _ => true
  | _ :: _, [] => false
  | a :: as, b :: bs =>
      if a.val < b.val then true
      else if b.val < a.val then false
      else strLtB as bs

def strLeB (a b : String) : Bool := !(strLtB b.data a.data)

def insertStr (x : String) : List String → List String
  | [] => [x]
  | y :: ys => if strLeB x y then x :: y :: ys else y :: insertStr x ys

/-- Python `sorted` on a list of (distinct) strings. -/
def sortStrings (l : List String) : List String := l.foldr insertStr []

/-! ### The root analyzer's `tech_patterns` table
(`comprehensive_analyzer.py`, lines 252-306) -/

def techPatternsRoot : List (String × List (List RTok)) :=
  [("React", [lits "import" ++ [.dotStar] ++ lits "react", lits "\"react\":",
      lits "useState", lits "useEffect", lits "jsx"]),
   ("Vue.js", [lits "import" ++ [.dotStar] ++ lits "vue", lits "\"vue\":",
      lits "<template>", lits "v-if", lits "v-for"]),
   ("Angular", [lits "@angular", lits "ng-", lits "angular.json", lits "@Component"]),
   ("Svelte", [lits ".svelte" ++ [.eol], lits "svelte"]),
   ("Next.js", [lits "next", lits "getStaticProps", lits "getServerSideProps"]),
   ("Express.js", [lits "\"express\":", lits "app.listen", lits "app.get",
      lits "express()"]),
   ("Django", [lits "django", lits "models.Model", lits "settings.py", lits "urls.py"]),
   ("Flask", [lits "from flask", lits "Flask(__name__)", lits "@app.route"]),
   ("FastAPI", [lits "from fastapi", lits "FastAPI()", lits "@app.get"]),
   ("Spring Framework", [lits "@SpringBootApplication", lits "@Controller",
      lits "spring-boot"]),
   ("JavaScript", [lits ".js" ++ [.eol], lits ".mjs" ++ [.eol], lits "function ",
      lits "const ", lits "let "]),
   ("TypeScript", [lits ".ts" ++ [.eol], lits ".tsx" ++ [.eol], lits "interface ",
      lits "type "]),
   ("Python", [lits ".py" ++ [.eol], lits "import ", lits "def ", lits "class "]),
   ("Java", [lits ".java" ++ [.eol], lits "public class", lits "import java"]),
   ("C#", [lits ".cs" ++ [.eol], lits "using System", lits "namespace "]),
   ("C++", [lits ".cpp" ++ [.eol], lits ".hpp" ++ [.eol], lits "#include <",
      lits "std::"]),
   ("Go", [lits ".go" ++ [.eol], lits "package main", lits "import \""]),
   ("Rust", [lits ".rs" ++ [.eol], lits "Cargo.toml", lits "fn main"]),
   ("PHP", [lits ".php" ++ [.eol], [.optChar '<'] ++ lits "php", lits "namespace "]),
   ("Ruby", [lits ".rb" ++ [.eol], lits "Gemfile", lits "require "]),
   ("PostgreSQL", [lits "postgresql", lits "psql", lits "pg_"]),
   ("MySQL", [lits "mysql", lits "CREATE TABLE"]),
   ("MongoDB", [lits "mongodb", lits "mongoose"]),
   ("Redis", [lits "redis", lits "REDIS_URL"]),
   ("SQLite", [lits "sqlite", lits ".db" ++ [.eol]]),
   ("Docker", [lits "Dockerfile", lits "docker-compose", lits "FROM "]),
   ("Kubernetes", [lits ".yaml" ++ [.eol], lits ".yml" ++ [.eol], lits "apiVersion:"]),
   ("Git", [lits ".git/", lits ".gitignore"]),
   ("Jest", [lits "jest", lits "describe(", lits "it(", lits "test("]),
   ("Mocha", [lits "mocha", lits "describe(", lits "it("]),
   ("PyTest", [lits "pytest", lits "test_"]),
   ("Webpack", [lits "webpack", lits "webpack.config"]),
   ("Vite", [lits "vite", lits "vite.config"]),
   ("npm", [lits "package.json", lits "package-lock.json"]),
   ("Yarn", [lits "yarn.lock"]),
   ("pip", [lits "requirements.txt"]),
   ("Maven", [lits "pom.xml"]),
   ("Gradle", [lits "build.gradle"]),
   ("Make", [lits "Makefile"]),
   ("Cargo", [lits "Cargo.toml"])]

def frontendFrameworksRoot : List String :=
  ["React", "Vue.js", "Angular", "Svelte", "Next.js"]

def backendFrameworksRoot : List String :=
  ["Express.js", "Django", "Flask", "FastAPI", "Spring Framework"]

def languagesListRoot : List String :=
  ["JavaScript", "TypeScript", "Python", "Java", "C#", "C++", "Go", "Rust",
   "PHP", "Ruby"]

def buildSystemsListRoot : List String :=
  ["Webpack", "Vite", "npm", "Yarn", "pip", "Maven", "Gradle", "Make", "Cargo"]

def testingListRoot : List String := ["Jest", "Mocha", "PyTest"]

/-! ### Corpus construction and the detection pass -/

/-- Navigate the tree along path components (first match wins, as a
filesystem has unique names). -/
def lookupFile (es : List Entry) : List String → Option FileNode
  | [] => none
  | [n] => es.findSome? (fun e => match e with
      | .file f => if f.name == n then some f else none
      | .dir _ _ => none)
  | n :: rest => es.findSome? (fun e => match e with
      | .file _ => none
      | .dir m c => if m == n then lookupFile c rest else none)

/-- Split a recorded relative path back into components. -/
def splitPath (p : String) : List String :=
  (p.data.splitOnP (· == '/')).map (fun cs => (⟨cs⟩ : String))

/-- The aggregated haystack of `detect_comprehensive_technologies`
(identical construction in both versions): every `fileStructure` key, the
re-read content of each such file that still exists, is analyzable and is
readable, then every `configFiles` entry, joined as the Python string
concatenation does it. -/
def buildSearchText (t : List Entry) (s : ScanState) : String :=
  let allFilenames :=
    s.fileStructure.foldl (fun acc kv => acc ++ " " ++ kv.1 ++ " ") ""
  let allContent :=
    s.fileStructure.foldl (fun acc kv =>
      match lookupFile t (splitPath kv.1) with
      | some f =>
          if isAnalyzableFile f.name && f.readOk then acc ++ " " ++ f.content ++ " "
          else acc
      | none => acc) ""
  let allFilenames :=
    s.configFiles.foldl (fun acc p => acc ++ " " ++ p ++ " ") allFilenames
  allFilenames ++ " " ++ allContent

structure TechSets where
  technologies : List String
  frameworks : List String
  languages : List String
  buildSystems : List String
  testingFrameworks : List String

/-- The categorisation `if/elif` chain inside the detection loop. -/
def addCategorized (frontend backend langs builds testing : List String)
    (acc : TechSets) (tech : String) : TechSets :=
  let acc := { acc with technologies := acc.technologies ++ [tech] }
  if frontend.contains tech then
    { acc with frameworks := acc.frameworks ++ [tech] }
  else if backend.contains tech then
    { acc with frameworks := acc.frameworks ++ [tech] }
  else if langs.contains tech then
    { acc with languages := acc.languages ++ [tech] }
  else if builds.contains tech then
    { acc with buildSystems := acc.buildSystems ++ [tech] }
  else if testing.contains tech then
    { acc with testingFrameworks := acc.testingFrameworks ++ [tech] }
  else acc

/-- One full detection pass over a pattern table: each signature counts as
detected when any of its patterns matches (the `break` short-circuit), and
the resulting sets are sorted. -/
def detectPass (table : List (String × List (List RTok)))
    (frontend backend langs builds testing : List String)
    (searchText : String) : TechSets :=
  let acc := table.foldl (fun acc entry =>
      if entry.2.any (fun p => rsearch p searchText) then
        addCategorized frontend backend langs builds testing acc entry.1
      else acc)
    ⟨[], [], [], [], []⟩
  ⟨sortStrings acc.technologies, sortStrings acc.frameworks,
   sortStrings acc.languages, sortStrings acc.buildSystems,
   sortStrings acc.testingFrameworks⟩

/-- Python `detect_comprehensive_technologies` of the root analyzer. -/
def detectTechnologiesRoot (t : List Entry) (s : ScanState) : TechSets :=
  detectPass techPatternsRoot frontendFrameworksRoot backendFrameworksRoot
    languagesListRoot buildSystemsListRoot testingListRoot (buildSearchText t s)

/-! ### JSON / TOML values and Python-semantics accessors

`json.loads` and `tomllib.loads` are external libraries; their outcome is
an oracle input of type `Option Json` (`none` models the library raising).
The accessors below reproduce how the analyzer's Python code then handles
the resulting value, including the `TypeError`/`AttributeError` cases its
blanket `except` clauses swallow. -/

inductive Json where
  | str (s : String)
  | num (n : Int)
  | jbool (b : Bool)
  | null
  | arr (elems : List Json)
  | obj (fields : List (String × Json))

/-- Python `len(x)`: defined on dicts, lists and strings, `TypeError`
otherwise. -/
def pyLen : Json → Except Unit Nat
  | .obj fields => .ok fields.length
  | .arr elems => .ok elems.length
  | .str s => .ok s.data.length
  | _ => .error ()

/-- Python `d.get(k, default)`: `AttributeError` when `d` is not a dict. -/
def pyGet (j : Json) (k : String) (default : Json) : Except Unit Json :=
  match j with
  | .obj fields => .ok ((fields.lookup k).getD default)
  | _ => .error ()

/-- Python `k in x` for a string key: key membership for dicts, element
membership for lists, substring test for strings, `TypeError` otherwise. -/
def pyIn (k : String) : Json → Except Unit Bool
  | .obj fields => .ok (fields.any (fun p => p.1 == k))
  | .arr elems => .ok (elems.any (fun e => match e with
      | .str s => s == k
      | _ => false))
  | .str s => .ok (strContains s k)
  | _ => .error ()

/-- Lift an oracle parse outcome; `none` models the library raising. -/
def ofParse (p : Option Json) : Except Unit Json :=
  match p with
  | some j => .ok j
  | none => .error ()

/-- Python `Path.read_text()`: raises when the file is unreadable. -/
def readText (f : FileNode) : Except Unit String :=
  if f.readOk then .ok f.content else .error ()

/-! ### Dependency analyzers

Each `analyze_*_dependencies` method returns a dict for the manifest and
appends setup/run hints; its whole body sits in `try`/`except: return {}`.
The body is modelled as an `Except` program over the oracles, and the
wrapper catches.  On an exception no hint list has been appended to yet in
any of the nine bodies, so the catch yields the empty output. -/

structure DepOut where
  record : List (String × Json)
  setup : List String
  run : List String

def emptyDepOut : DepOut := ⟨[], [], []⟩

/-- Python except-clause returning the empty dict. -/
def wrapCatch (e : Except Unit DepOut) : DepOut :=
  match e with
  | .ok r => r
  | .error _ => emptyDepOut

/-- Does a root-level entry with this name exist
(`(self.project_path / name).exists()`)? -/
def rootExists (t : List Entry) (n : String) : Bool :=
  t.any (fun e => match e with
    | .file f => f.name == n
    | .dir m _ => m == n)

/-- Python `analyze_npm_dependencies` body of the root analyzer
(`comprehensive_analyzer.py`, lines 387-411). -/
def analyzeNpmBodyRoot (jparse : String → Option Json) (f : FileNode) :
    Except Unit DepOut := do
  let content ← readText f
  let data ← ofParse (jparse content)
  let deps ← pyGet data "dependencies" (.obj [])
  let devDeps ← pyGet data "devDependencies" (.obj [])
  let scripts ← pyGet data "scripts" (.obj [])
  let nd ← pyLen deps
  let ndd ← pyLen devDeps
  let result := [("dependencies", deps), ("devDependencies", devDeps),
    ("scripts", scripts), ("total_count", Json.num (nd + ndd))]
  let hasStart ← pyIn "start" scripts
  let hasDev ← pyIn "dev" scripts
  let hasBuild ← pyIn "build" scripts
  let run := (if hasStart then ["npm start"] else []) ++
    (if hasDev then ["npm run dev"] else [])
  let setup := (if hasBuild then ["npm run build"] else []) ++ ["npm install"]
  .ok ⟨result, setup, run⟩

def analyzeNpmRoot (jparse : String → Option Json) (f : FileNode) : DepOut :=
  wrapCatch (analyzeNpmBodyRoot jparse f)

/-- One line of `requirements.txt` handling (identical in both versions):
`==` pins first, then `>=` lower bounds, then a bare name meaning
`"latest"`; blank and `#` lines are skipped. -/
def pipStep (d : List (String × String)) (rawLine : String) :
    List (String × String) :=
  let line := pyStrip rawLine
  if !(line == "") && !pyStartsWith line "#" then
    if strContains line "==" then
      let nv := pySplit1 line "=="
      dictInsert d (pyStrip nv.1) (pyStrip nv.2)
    else if strContains line ">=" then
      let nv := pySplit1 line ">="
      dictInsert d (pyStrip nv.1) (">=" ++ pyStrip nv.2)
    else dictInsert d line "latest"
  else d

/-- The dependency dict a `requirements.txt` content parses to. -/
def pipDeps (content : String) : List (String × String) :=
  (pySplitlines content).foldl pipStep []

/-- Python `analyze_pip_dependencies` body of the root analyzer
(`comprehensive_analyzer.py`, lines 413-442). -/
def analyzePipBodyRoot (rootHas : String → Bool) (f : FileNode) :
    Except Unit DepOut := do
  let content ← readText f
  let deps := pipDeps content
  let setup := ["python -m venv venv", "pip install -r requirements.txt"]
  let run := (if rootHas "app.py" then ["python app.py"] else []) ++
    (if rootHas "main.py" then ["python main.py"] else [])
  .ok ⟨[("dependencies", Json.obj (deps.map (fun kv => (kv.1, Json.str kv.2)))),
    ("total_count", Json.num deps.length)], setup, run⟩

def analyzePipRoot (rootHas : String → Bool) (f : FileNode) : DepOut :=
  wrapCatch (analyzePipBodyRoot rootHas f)

/-- Python `analyze_poetry_dependencies` body of the root analyzer (via
`tomllib.loads`, an oracle). -/
def analyzePoetryBodyRoot (tparse : String → Option Json) (f : FileNode) :
    Except Unit DepOut := do
  let content ← readText f
  let data ← ofParse (tparse content)
  let tool ← pyGet data "tool" (.obj [])
  let poetry ← pyGet tool "poetry" (.obj [])
  let deps ← pyGet poetry "dependencies" (.obj [])
  let n ← pyLen deps
  .ok ⟨[("dependencies", deps), ("total_count", Json.num n)],
    ["poetry install", "poetry shell"], []⟩

/-- The ImportError guard around `import tomllib` (returning the empty
dict) sits outside the main try-block. -/
def analyzePoetryRoot (hasTomllib : Bool) (tparse : String → Option Json)
    (f : FileNode) : DepOut :=
  if !hasTomllib then emptyDepOut
  else wrapCatch (analyzePoetryBodyRoot tparse f)

/-- One `Gemfile` line (identical in both versions). -/
def bundlerStep (d : List (String × String)) (rawLine : String) :
    List (String × String) :=
  let line := pyStrip rawLine
  if pyStartsWith line "gem " then
    let parts := pySplitWs line
    if parts.length ≥ 2 then
      dictInsert d (pyStripQuotes (parts.getD 1 "")) "latest"
    else d
  else d

/-- Python `analyze_bundler_dependencies` body (identical in both versions). -/
def analyzeBundlerBody (f : FileNode) : Except Unit DepOut := do
  let content ← readText f
  let deps := (pySplitlines content).foldl bundlerStep []
  .ok ⟨[("dependencies", Json.obj (deps.map (fun kv => (kv.1, Json.str kv.2)))),
    ("total_count", Json.num deps.length)], ["bundle install"], []⟩

def analyzeBundler (f : FileNode) : DepOut :=
  wrapCatch (analyzeBundlerBody f)

/-- Python `analyze_composer_dependencies` body (identical in both versions). -/
def analyzeComposerBody (jparse : String → Option Json) (f : FileNode) :
    Except Unit DepOut := do
  let content ← readText f
  let data ← ofParse (jparse content)
  let deps ← pyGet data "require" (.obj [])
  let n ← pyLen deps
  .ok ⟨[("dependencies", deps), ("total_count", Json.num n)],
    ["composer install"], []⟩

def analyzeComposer (jparse : String → Option Json) (f : FileNode) : DepOut :=
  wrapCatch (analyzeComposerBody jparse f)

/-- Python `analyze_maven_dependencies` body of the root analyzer; the
`re.findall` over `<dependency>` blocks is an oracle returning the list of
(group, artifact, version) captures. -/
def analyzeMavenBodyRoot (mavenFindall : String → List (String × String × String))
    (f : FileNode) : Except Unit DepOut := do
  let content ← readText f
  let deps := (mavenFindall content).foldl (fun d gav =>
      dictInsert d (pyStrip gav.1 ++ ":" ++ pyStrip gav.2.1) (pyStrip gav.2.2)) []
  .ok ⟨[("dependencies", Json.obj (deps.map (fun kv => (kv.1, Json.str kv.2)))),
    ("total_count", Json.num deps.length)], ["mvn compile", "mvn test"], []⟩

def analyzeMavenRoot (mavenFindall : String → List (String × String × String))
    (f : FileNode) : DepOut :=
  wrapCatch (analyzeMavenBodyRoot mavenFindall f)

/-- One `build.gradle` line, threading the `in_dependencies` flag; the
`re.search` for the quoted `group:artifact:version` coordinate is an
oracle applied per line (identical logic in both versions). -/
def gradleStep (gradleMatch : String → Option (String × String × String))
    (st : List (String × String) × Bool) (rawLine : String) :
    List (String × String) × Bool :=
  let line := pyStrip rawLine
  if strContains line "dependencies \x7b" then (st.1, true)
  else if st.2 && strContains line "\x7d" then (st.1, false)
  else if st.2 && (["implementation", "compile"].any (fun k => strContains line k)) then
    match gradleMatch line with
    | some gav => (dictInsert st.1 (gav.1 ++ ":" ++ gav.2.1) gav.2.2, st.2)
    | none => st
  else st

/-- Python `analyze_gradle_dependencies` body of the root analyzer. -/
def analyzeGradleBodyRoot (gradleMatch : String → Option (String × String × String))
    (f : FileNode) : Except Unit DepOut := do
  let content ← readText f
  let deps := ((pySplitlines content).foldl (gradleStep gradleMatch) ([], false)).1
  .ok ⟨[("dependencies", Json.obj (deps.map (fun kv => (kv.1, Json.str kv.2)))),
    ("total_count", Json.num deps.length)], ["./gradlew build"], []⟩

def analyzeGradleRoot (gradleMatch : String → Option (String × String × String))
    (f : FileNode) : DepOut :=
  wrapCatch (analyzeGradleBodyRoot gradleMatch f)

/-- Python `analyze_cargo_dependencies` body of the root analyzer (via
`tomllib.loads`, an oracle). -/
def analyzeCargoBodyRoot (tparse : String → Option Json) (f : FileNode) :
    Except Unit DepOut := do
  let content ← readText f
  let data ← ofParse (tparse content)
  let deps ← pyGet data "dependencies" (.obj [])
  let n ← pyLen deps
  .ok ⟨[("dependencies", deps), ("total_count", Json.num n)],
    ["cargo build"], ["cargo run"]⟩

def analyzeCargoRoot (hasTomllib : Bool) (tparse : String → Option Json)
    (f : FileNode) : DepOut :=
  if !hasTomllib then emptyDepOut
  else wrapCatch (analyzeCargoBodyRoot tparse f)

/-- Replace every occurrence of a non-empty pattern, left to right. -/
def replaceAux (pat rep : List Char) : List Char → List Char
  | [] => []
  | c :: cs =>
      if pat.isPrefixOf (c :: cs) then
        rep ++ replaceAux pat rep (cs.drop (pat.length - 1))
      else c :: replaceAux pat rep cs
termination_by cs => cs.length
decreasing_by
  · simp only [List.length_drop, List.length_cons]
    omega
  · simp

/-- Python `s.replace(pat, rep)` (all occurrences). -/
def pyReplace (s pat rep : String) : String :=
  if pat.data.isEmpty then s
  else ⟨replaceAux pat.data rep.data s.data⟩

/-- One `go.mod` line of the root analyzer (only `require ` lines). -/
def goStepRoot (d : List (String × String)) (rawLine : String) :
    List (String × String) :=
  let line := pyStrip rawLine
  if pyStartsWith line "require " then
    let parts := pySplitWs (pyReplace line "require " "")
    if parts.length ≥ 2 then dictInsert d (parts.getD 0 "") (parts.getD 1 "")
    else d
  else d

/-- Python `analyze_go_dependencies` body of the root analyzer. -/
def analyzeGoBodyRoot (f : FileNode) : Except Unit DepOut := do
  let content ← readText f
  let deps := (pySplitlines content).foldl goStepRoot []
  .ok ⟨[("dependencies", Json.obj (deps.map (fun kv => (kv.1, Json.str kv.2)))),
    ("total_count", Json.num deps.length)], ["go mod download"], ["go run main.go"]⟩

def analyzeGoRoot (f : FileNode) : DepOut :=
  wrapCatch (analyzeGoBodyRoot f)

/-! ### The dependency registry walk
(`analyze_dependencies_comprehensive`, identical structure in both
versions) -/

/-- External-library oracles one analysis run is performed against. -/
structure DepEnv where
  jparse : String → Option Json
  tparse : String → Option Json
  hasTomllib : Bool
  mavenFindall : String → List (String × String × String)
  gradleMatch : String → Option (String × String × String)

/-- The root-level node a manifest name resolves to.  A directory with a
manifest's name satisfies `.exists()` but fails `read_text()`, so it is
modelled as an unreadable node. -/
def rootFileFor (t : List Entry) (n : String) : Option FileNode :=
  t.findSome? (fun e => match e with
    | .file f => if f.name == n then some f else none
    | .dir m _ => if m == n then some ⟨n, true, 0, 0, false, ""⟩ else none)

/-- Python `dependency_analyzers` of the root analyzer, in registration order. -/
def dependencyAnalyzersRoot (env : DepEnv) (t : List Entry) :
    List (String × (FileNode → DepOut)) :=
  [("package.json", analyzeNpmRoot env.jparse),
   ("requirements.txt", analyzePipRoot (rootExists t)),
   ("pyproject.toml", analyzePoetryRoot env.hasTomllib env.tparse),
   ("Gemfile", analyzeBundler),
   ("composer.json", analyzeComposer env.jparse),
   ("pom.xml", analyzeMavenRoot env.mavenFindall),
   ("build.gradle", analyzeGradleRoot env.gradleMatch),
   ("Cargo.toml", analyzeCargoRoot env.hasTomllib env.tparse),
   ("go.mod", analyzeGoRoot)]

/-- Result of the registry walk: the `dependencies` map plus accumulated
`setupInstructions` and `runCommands` hints. -/
structure DepsResult where
  dependencies : List (String × List (String × Json))
  setup : List String
  run : List String

/-- Fold the registry over the manifests present at the project root: a
manifest whose analyzer returns a non-empty dict (`if deps:`) is recorded;
an empty return is dropped and the loop continues. -/
def runRegistry (reg : List (String × (FileNode → DepOut))) (t : List Entry) :
    DepsResult :=
  reg.foldl (fun acc entry =>
      match rootFileFor t entry.1 with
      | some f =>
          let out := entry.2 f
          { acc with
            dependencies :=
              if !out.record.isEmpty then dictInsert acc.dependencies entry.1 out.record
              else acc.dependencies,
            setup := acc.setup ++ out.setup,
            run := acc.run ++ out.run }
      | none => acc)
    ⟨[], [], []⟩

/-- Python `analyze_dependencies_comprehensive` of the root analyzer. -/
def analyzeDependenciesRoot (env : DepEnv) (t : List Entry) : DepsResult :=
  runRegistry (dependencyAnalyzersRoot env t) t

/-! ### The scripts analyzer's dependency parsers
(`scripts/comprehensive_analyzer.py`, lines 438-683) -/

/-- Python `analyze_npm_dependencies` body of the scripts analyzer: also records
`engines` and reacts to `windev` and `test` scripts. -/
def analyzeNpmBodyScripts (jparse : String → Option Json) (f : FileNode) :
    Except Unit DepOut := do
  let content ← readText f
  let data ← ofParse (jparse content)
  let deps ← pyGet data "dependencies" (.obj [])
  let devDeps ← pyGet data "devDependencies" (.obj [])
  let scripts ← pyGet data "scripts" (.obj [])
  let engines ← pyGet data "engines" (.obj [])
  let nd ← pyLen deps
  let ndd ← pyLen devDeps
  let result := [("dependencies", deps), ("devDependencies", devDeps),
    ("scripts", scripts), ("engines", engines), ("total_count", Json.num (nd + ndd))]
  let hasStart ← pyIn "start" scripts
  let hasDev ← pyIn "dev" scripts
  let hasWindev ← pyIn "windev" scripts
  let hasBuild ← pyIn "build" scripts
  let hasTest ← pyIn "test" scripts
  let run := (if hasStart then ["npm start"] else []) ++
    (if hasDev then ["npm run dev"] else []) ++
    (if hasWindev then ["npm run windev"] else [])
  let setup := (if hasBuild then ["npm run build"] else []) ++
    (if hasTest then ["npm test"] else []) ++ ["npm install"]
  .ok ⟨result, setup, run⟩

def analyzeNpmScripts (jparse : String → Option Json) (f : FileNode) : DepOut :=
  wrapCatch (analyzeNpmBodyScripts jparse f)

/-- Python `analyze_pip_dependencies` body of the scripts analyzer (extra venv
activation hint and the `manage.py` entry point). -/
def analyzePipBodyScripts (rootHas : String → Bool) (f : FileNode) :
    Except Unit DepOut := do
  let content ← readText f
  let deps := pipDeps content
  let setup := ["python -m venv venv",
    "venv\\Scripts\\activate (Windows) or source venv/bin/activate (Unix)",
    "pip install -r requirements.txt"]
  let run := (if rootHas "app.py" then ["python app.py"] else []) ++
    (if rootHas "main.py" then ["python main.py"] else []) ++
    (if rootHas "manage.py" then ["python manage.py runserver"] else [])
  .ok ⟨[("dependencies", Json.obj (deps.map (fun kv => (kv.1, Json.str kv.2)))),
    ("total_count", Json.num deps.length)], setup, run⟩

def analyzePipScripts (rootHas : String → Bool) (f : FileNode) : DepOut :=
  wrapCatch (analyzePipBodyScripts rootHas f)

/-- One line of the hand-rolled TOML table scan used by the scripts
analyzer for Poetry and Cargo manifests: track whether the cursor is
inside the wanted table, and split `name = version` rows on the first
`=`. -/
def tomlTableStep (header : String) (st : List (String × String) × Bool)
    (rawLine : String) : List (String × String) × Bool :=
  let line := pyStrip rawLine
  if line == header then (st.1, true)
  else if pyStartsWith line "[" && !(line == header) then (st.1, false)
  else if st.2 && strContains line "=" && !pyStartsWith line "#" then
    let parts := pySplit1 line "="
    (dictInsert st.1 (pyStrip parts.1) (pyStripQuotes (pyStrip parts.2)), st.2)
  else st

/-- Python `analyze_poetry_dependencies` body of the scripts analyzer (pure line
scanning, no `tomllib`). -/
def analyzePoetryBodyScripts (f : FileNode) : Except Unit DepOut := do
  let content ← readText f
  let deps := ((pySplitlines content).foldl
    (tomlTableStep "[tool.poetry.dependencies]") ([], false)).1
  .ok ⟨[("dependencies", Json.obj (deps.map (fun kv => (kv.1, Json.str kv.2)))),
    ("total_count", Json.num deps.length)], ["poetry install", "poetry shell"], []⟩

def analyzePoetryScripts (f : FileNode) : DepOut :=
  wrapCatch (analyzePoetryBodyScripts f)

/-- Python `analyze_maven_dependencies` body of the scripts analyzer (also emits
the Spring Boot run hint). -/
def analyzeMavenBodyScripts (mavenFindall : String → List (String × String × String))
    (f : FileNode) : Except Unit DepOut := do
  let content ← readText f
  let deps := (mavenFindall content).foldl (fun d gav =>
      dictInsert d (pyStrip gav.1 ++ ":" ++ pyStrip gav.2.1) (pyStrip gav.2.2)) []
  .ok ⟨[("dependencies", Json.obj (deps.map (fun kv => (kv.1, Json.str kv.2)))),
    ("total_count", Json.num deps.length)],
    ["mvn compile", "mvn test"], ["mvn spring-boot:run"]⟩

def analyzeMavenScripts (mavenFindall : String → List (String × String × String))
    (f : FileNode) : DepOut :=
  wrapCatch (analyzeMavenBodyScripts mavenFindall f)

/-- Python `analyze_gradle_dependencies` body of the scripts analyzer (also emits
the `bootRun` hint). -/
def analyzeGradleBodyScripts (gradleMatch : String → Option (String × String × String))
    (f : FileNode) : Except Unit DepOut := do
  let content ← readText f
  let deps := ((pySplitlines content).foldl (gradleStep gradleMatch) ([], false)).1
  .ok ⟨[("dependencies", Json.obj (deps.map (fun kv => (kv.1, Json.str kv.2)))),
    ("total_count", Json.num deps.length)],
    ["./gradlew build"], ["./gradlew bootRun"]⟩

def analyzeGradleScripts (gradleMatch : String → Option (String × String × String))
    (f : FileNode) : DepOut :=
  wrapCatch (analyzeGradleBodyScripts gradleMatch f)

/-- Python `analyze_cargo_dependencies` body of the scripts analyzer (pure line
scanning of the `[dependencies]` table). -/
def analyzeCargoBodyScripts (f : FileNode) : Except Unit DepOut := do
  let content ← readText f
  let deps := ((pySplitlines content).foldl
    (tomlTableStep "[dependencies]") ([], false)).1
  .ok ⟨[("dependencies", Json.obj (deps.map (fun kv => (kv.1, Json.str kv.2)))),
    ("total_count", Json.num deps.length)], ["cargo build"], ["cargo run"]⟩

def analyzeCargoScripts (f : FileNode) : DepOut :=
  wrapCatch (analyzeCargoBodyScripts f)

/-- One `go.mod` line of the scripts analyzer: `require ` lines plus any
other two-token line that is not a `module`, `go ` or `//` line. -/
def goStepScripts (d : List (String × String)) (rawLine : String) :
    List (String × String) :=
  let line := pyStrip rawLine
  if pyStartsWith line "require " then
    let parts := pySplitWs (pyReplace line "require " "")
    if parts.length ≥ 2 then dictInsert d (parts.getD 0 "") (parts.getD 1 "")
    else d
  else if !(line == "") && !pyStartsWith line "module" && !pyStartsWith line "go " &&
      strContains line " " then
    let parts := pySplitWs line
    if parts.length ≥ 2 && !pyStartsWith line "//" then
      dictInsert d (parts.getD 0 "") (parts.getD 1 "")
    else d
  else d

/-- Python `analyze_go_dependencies` body of the scripts analyzer. -/
def analyzeGoBodyScripts (f : FileNode) : Except Unit DepOut := do
  let content ← readText f
  let deps := (pySplitlines content).foldl goStepScripts []
  .ok ⟨[("dependencies", Json.obj (deps.map (fun kv => (kv.1, Json.str kv.2)))),
    ("total_count", Json.num deps.length)], ["go mod download"], ["go run main.go"]⟩

def analyzeGoScripts (f : FileNode) : DepOut :=
  wrapCatch (analyzeGoBodyScripts f)

/-- Python `dependency_analyzers` of the scripts analyzer, in registration
order. -/
def dependencyAnalyzersScripts (env : DepEnv) (t : List Entry) :
    List (String × (FileNode → DepOut)) :=
  [("package.json", analyzeNpmScripts env.jparse),
   ("requirements.txt", analyzePipScripts (rootExists t)),
   ("pyproject.toml", analyzePoetryScripts),
   ("Gemfile", analyzeBundler),
   ("composer.json", analyzeComposer env.jparse),
   ("pom.xml", analyzeMavenScripts env.mavenFindall),
   ("build.gradle", analyzeGradleScripts env.gradleMatch),
   ("Cargo.toml", analyzeCargoScripts),
   ("go.mod", analyzeGoScripts)]

/-- Python `analyze_dependencies_comprehensive` of the scripts analyzer. -/
def analyzeDependenciesScripts (env : DepEnv) (t : List Entry) : DepsResult :=
  runRegistry (dependencyAnalyzersScripts env t) t

/-! ### The scripts analyzer's `tech_patterns` table
(`scripts/comprehensive_analyzer.py`, lines 242-379).

The Python dict literal lists `'TypeScript'` twice (once under Languages,
once under Development Tools); a duplicate key in a dict literal keeps the
first position but the last value, so the table below has `TypeScript` in
the Languages position carrying the Development-Tools pattern list. -/

def apostrophe : String := String.singleton (Char.ofNat 39)

def techPatternsScripts : List (String × List (List RTok)) :=
  [("React", [lits "import" ++ [.dotStar] ++ lits "react", lits "\"react\":",
      lits "useState", lits "useEffect", lits "jsx", lits "React."]),
   ("Vue.js", [lits "import" ++ [.dotStar] ++ lits "vue", lits "\"vue\":",
      lits "<template>", lits "v-if", lits "v-for", lits "Vue."]),
   ("Angular", [lits "@angular", lits "ng-", lits "angular.json",
      lits "@Component", lits "Angular"]),
   ("Svelte", [lits ".svelte" ++ [.eol], lits "svelte", lits "SvelteKit"]),
   ("Next.js", [lits "\"next\":", lits "next.config", lits "getStaticProps",
      lits "getServerSideProps"]),
   ("Nuxt.js", [lits "\"nuxt\":", lits "nuxt.config", lits "@nuxt"]),
   ("Gatsby", [lits "\"gatsby\":", lits "gatsby-config"]),
   ("Express.js", [lits "\"express\":", lits "app.listen", lits "app.get",
      lits "express()", lits "router."]),
   ("Fastify", [lits "\"fastify\":", lits "fastify.register"]),
   ("Koa", [lits "\"koa\":", lits "ctx."]),
   ("Django", [lits "django", lits "models.Model", lits "settings.py",
      lits "urls.py", lits "manage.py"]),
   ("Flask", [lits "from flask", lits "Flask(__name__)", lits "@app.route",
      lits "render_template"]),
   ("FastAPI", [lits "from fastapi", lits "FastAPI()", lits "@app.get",
      lits "@app.post"]),
   ("Spring Framework", [lits "@SpringBootApplication", lits "@Controller",
      lits "spring-boot", lits "@Service"]),
   ("ASP.NET", [lits "Microsoft.AspNetCore", lits "@page", lits "@model"]),
   ("Ruby on Rails", [lits "rails", lits "ActiveRecord", lits "Gemfile"]),
   ("JavaScript", [lits ".js" ++ [.eol], lits ".mjs" ++ [.eol], lits "function ",
      lits "const ", lits "let ", lits "var "]),
   ("TypeScript", [lits "tsconfig.json", lits ".ts" ++ [.eol], lits ".tsx" ++ [.eol]]),
   ("Python", [lits ".py" ++ [.eol], lits "import ", lits "def ", lits "class ",
      lits "from " ++ [.dotStar] ++ lits " import"]),
   ("Java", [lits ".java" ++ [.eol], lits "public class", lits "import java",
      lits "public static void main"]),
   ("C#", [lits ".cs" ++ [.eol], lits "using System", lits "namespace ",
      lits "public class"]),
   ("C++", [lits ".cpp" ++ [.eol], lits ".hpp" ++ [.eol], lits "#include <",
      lits "std::", lits "namespace"]),
   ("Go", [lits ".go" ++ [.eol], lits "package main", lits "import \"",
      lits "func main"]),
   ("Rust", [lits ".rs" ++ [.eol], lits "Cargo.toml", lits "fn main",
      lits "use std::"]),
   ("PHP", [lits ".php" ++ [.eol], [.optChar '<'] ++ lits "php", lits "namespace ",
      lits "composer.json"]),
   ("Ruby", [lits ".rb" ++ [.eol], lits "Gemfile", lits "require ", lits "class "]),
   ("Swift", [lits ".swift" ++ [.eol], lits "import Foundation"]),
   ("Kotlin", [lits ".kt" ++ [.eol], lits "package ", lits "import "]),
   ("Dart", [lits ".dart" ++ [.eol], lits ("import " ++ apostrophe ++ "dart:")]),
   ("PostgreSQL", [lits "postgresql", lits "psql", lits "pg_", lits "@neondatabase"]),
   ("MySQL", [lits "mysql", lits "CREATE TABLE"]),
   ("MongoDB", [lits "mongodb", lits "mongoose", lits "db.collection"]),
   ("Redis", [lits "redis", lits "REDIS_URL"]),
   ("SQLite", [lits "sqlite", lits ".db" ++ [.eol]]),
   ("Drizzle ORM", [lits "drizzle-orm", lits "drizzle.config", lits "drizzle-kit"]),
   ("Prisma", [lits "prisma", lits "@prisma/client"]),
   ("Docker", [lits "Dockerfile", lits "docker-compose", lits "FROM "]),
   ("Kubernetes", [lits ".yaml" ++ [.eol], lits ".yml" ++ [.eol],
      lits "apiVersion:", lits "kind:"]),
   ("Git", [lits ".git/", lits ".gitignore"]),
   ("GitHub Actions", [lits ".github/workflows", lits "uses:", lits "runs-on:"]),
   ("Jest", [lits "\"jest\":", lits "describe(", lits "it(", lits "test(",
      lits "jest.config"]),
   ("Mocha", [lits "\"mocha\":", lits "describe(", lits "it("]),
   ("Cypress", [lits "\"cypress\":", lits "cy."]),
   ("PyTest", [lits "pytest", lits "test_", lits "@pytest"]),
   ("JUnit", [lits "junit", lits "@Test"]),
   ("Webpack", [lits "\"webpack\":", lits "webpack.config"]),
   ("Vite", [lits "\"vite\":", lits "vite.config"]),
   ("Rollup", [lits "\"rollup\":", lits "rollup.config"]),
   ("Parcel", [lits "\"parcel\":", lits ".parcelrc"]),
   ("npm", [lits "package.json", lits "package-lock.json"]),
   ("Yarn", [lits "yarn.lock", lits ".yarnrc"]),
   ("pnpm", [lits "pnpm-lock.yaml"]),
   ("pip", [lits "requirements.txt", lits "pip install"]),
   ("Poetry", [lits "pyproject.toml", lits "poetry.lock"]),
   ("Maven", [lits "pom.xml", lits "mvn"]),
   ("Gradle", [lits "build.gradle", lits "gradlew"]),
   ("Make", [lits "Makefile", lits "makefile"]),
   ("Cargo", [lits "Cargo.toml", lits "cargo"]),
   ("Tailwind CSS", [lits "\"tailwindcss\":", lits "@tailwind",
      lits "tailwind.config"]),
   ("Bootstrap", [lits "\"bootstrap\":", lits "btn-", lits "container-"]),
   ("Sass", [lits ".sass" ++ [.eol], lits ".scss" ++ [.eol], lits "@mixin",
      lits "@include"]),
   ("Less", [lits ".less" ++ [.eol], lits "@import"]),
   ("PostCSS", [lits "\"postcss\":", lits "postcss.config"]),
   ("Material-UI", [lits "@mui", lits "@material-ui"]),
   ("Ant Design", [lits "\"antd\":", lits "ant-design"]),
   ("Chakra UI", [lits "@chakra-ui"]),
   ("shadcn/ui", [lits "\"@radix-ui\":", lits "components.json",
      lits "ui/" ++ [.dotStar] ++ lits ".tsx"]),
   ("Redux", [lits "\"redux\":", lits "@reduxjs/toolkit", lits "useSelector"]),
   ("Zustand", [lits "\"zustand\":", lits "create("]),
   ("MobX", [lits "\"mobx\":", lits "observable"]),
   ("React Native", [lits "\"react-native\":", lits "React Native"]),
   ("Flutter", [lits "\"flutter\":", lits "pubspec.yaml"]),
   ("Ionic", [lits "\"@ionic\":", lits "ion-"]),
   ("GraphQL", [lits "\"graphql\":", lits "query ", lits "mutation "]),
   ("REST API", [lits "/api/", lits "@RestController"]),
   ("tRPC", [lits "\"@trpc\":", lits "trpc"]),
   ("Axios", [lits "\"axios\":", lits "axios."]),
   ("Fetch API", [lits "fetch("]),
   ("NextAuth", [lits "\"next-auth\":", lits "NextAuth"]),
   ("Passport", [lits "\"passport\":", lits "passport.use"]),
   ("Auth0", [lits "\"@auth0\":", lits "auth0"]),
   ("Firebase Auth", [lits "firebase/auth"]),
   ("Vercel", [lits "vercel.json", lits ".vercel"]),
   ("Netlify", [lits "netlify.toml", lits "_redirects"]),
   ("AWS", [lits "\"aws-", lits "amazonaws"]),
   ("Google Cloud", [lits "\"@google-cloud\":", lits "googleapis"]),
   ("Replit", [lits ".replit", lits "replit.nix"]),
   ("Sentry", [lits "\"@sentry\":", lits "Sentry."]),
   ("Google Analytics", [lits "gtag(", lits "ga("]),
   ("Posthog", [lits "\"posthog\":", lits "posthog."]),
   ("Strapi", [lits "\"@strapi\":", lits "strapi"]),
   ("Contentful", [lits "\"contentful\":", lits "contentful"]),
   ("Sanity", [lits "\"@sanity\":", lits "sanity"]),
   ("ESLint", [lits ".eslintrc", lits "\"eslint\":"]),
   ("Prettier", [lits ".prettierrc", lits "\"prettier\":"]),
   ("Husky", [lits "\"husky\":", lits ".husky"]),
   ("Babel", [lits "babel.config", lits "\"@babel\""]),
   ("Stripe", [lits "\"stripe\":", lits "stripe."]),
   ("PayPal", [lits "\"@paypal\":", lits "paypal"]),
   ("Shopify", [lits "\"@shopify\":", lits "shopify"])]

def frontendFrameworksScripts : List String :=
  ["React", "Vue.js", "Angular", "Svelte", "Next.js", "Nuxt.js", "Gatsby"]

def backendFrameworksScripts : List String :=
  ["Express.js", "Fastify", "Koa", "Django", "Flask", "FastAPI",
   "Spring Framework", "ASP.NET", "Ruby on Rails"]

def languagesListScripts : List String :=
  ["JavaScript", "TypeScript", "Python", "Java", "C#", "C++", "Go", "Rust",
   "PHP", "Ruby", "Swift", "Kotlin", "Dart"]

def buildSystemsListScripts : List String :=
  ["Webpack", "Vite", "Rollup", "Parcel", "npm", "Yarn", "pnpm", "pip",
   "Poetry", "Maven", "Gradle", "Make", "Cargo"]

def testingListScripts : List String :=
  ["Jest", "Mocha", "Cypress", "PyTest", "JUnit"]

/-- Python `detect_comprehensive_technologies` of the scripts analyzer. -/
def detectTechnologiesScripts (t : List Entry) (s : ScanState) : TechSets :=
  detectPass techPatternsScripts frontendFrameworksScripts backendFrameworksScripts
    languagesListScripts buildSystemsListScripts testingListScripts
    (buildSearchText t s)

/-! ### `detect_project_type` of the scripts analyzer
(`scripts/comprehensive_analyzer.py`, lines 685-738) -/

/-- Python `type_indicators`, in dict insertion order. -/
def typeIndicatorsScripts : List (String × List String) :=
  [("Web Application",
    ["package.json", "index.html", "React", "Vue.js", "Angular", "Express.js",
     "Next.js", "Nuxt.js", "Gatsby", "Svelte"]),
   ("API/Backend Service",
    ["Express.js", "Django", "Flask", "FastAPI", "Spring Framework",
     "routes/", "controllers/", "api/", "/api"]),
   ("Full-Stack Application",
    ["React", "Vue.js", "Angular", "Express.js", "Django", "Flask",
     "client/", "server/", "backend/", "frontend/"]),
   ("Desktop Application",
    ["electron", "tauri", "PyQt", "tkinter", ".exe"]),
   ("Mobile Application",
    ["React Native", "Flutter", "Ionic", "android/", "ios/"]),
   ("Library/Package",
    ["setup.py", "pyproject.toml", "lib/", "src/", "index.js"]),
   ("Documentation",
    ["docs/", "README.md", ".md", "jekyll", "hugo"]),
   ("Development Environment",
    ["IDE", "development environment", "code editor", "Monaco", "AI"])]

/-- The `all_indicators` haystack: joined technologies, config-file paths
and fileStructure keys, plus the lowered project name and path, all
lowered once more. -/
def allIndicatorsScripts (techs configs fsKeys : List String)
    (projectName projectPath : String) : String :=
  pyLower (String.intercalate " " techs ++ " " ++
    String.intercalate " " configs ++ " " ++
    String.intercalate " " fsKeys ++ " " ++
    pyLower projectName ++ " " ++ pyLower projectPath)

/-- Python `max(scores, key=scores.get)`: the first key attaining the
maximum, in iteration order. -/
def argmaxFirst : List (String × Nat) → Option (String × Nat)
  | [] => none
  | x :: xs => some (xs.foldl (fun best y => if y.2 > best.2 then y else best) x)

/-- Python `detect_project_type` of the scripts analyzer.  The `else "Unknown"`
arm corresponds to `scores` being empty, which cannot happen because the
indicator table is a static non-empty literal. -/
def detectProjectTypeScripts (techs configs fsKeys : List String)
    (projectName projectPath : String) : String :=
  let allInd := allIndicatorsScripts techs configs fsKeys projectName projectPath
  let scores := typeIndicatorsScripts.map (fun ti =>
    (ti.1, ti.2.countP (fun ind => strContains allInd (pyLower ind))))
  match argmaxFirst scores with
  | some best => if best.2 > 0 then best.1 else "General Software Project"
  | none => "Unknown"

/-! ### Git detection (`analyze_git_repository`): `isGitRepo` is
`(project_path / ".git").exists()`; the branch/commit counts come from
`git` subprocesses and are outside the modelled state. -/

def gitIsRepo (t : List Entry) : Bool := rootExists t ".git"

/-! ### `calculate_quality_metrics` of the scripts analyzer
(`scripts/comprehensive_analyzer.py`, lines 1063-1163) -/

/-- The pipeline state the quality scorer reads (the relevant slice of
`insights_data` after the earlier stages have filled it in). -/
structure Insights where
  technologies : List String
  frameworks : List String
  languages : List String
  buildSystems : List String
  testingFrameworks : List String
  totalFiles : Nat
  totalLinesOfCode : Nat
  fileTypes : List (String × Nat)
  dependencies : List (String × List (String × Json))
  mainEntryPoints : List String
  configFiles : List String
  testFiles : List String
  documentationFiles : List String
  fileStructure : List (String × FileInfo)
  isGitRepo : Bool

/-- Python `deps.get('total_count', 0)` for one recorded manifest (the records
built by the nine parsers always store an integer there). -/
def depTotalCount (rec : List (String × Json)) : Int :=
  match rec.lookup "total_count" with
  | some (.num n) => n
  | _ => 0

/-- Python `sum(deps.get('total_count', 0) for deps in dependencies.values())`. -/
def totalDeps (i : Insights) : Int :=
  (i.dependencies.map (fun kv => depTotalCount kv.2)).sum

/-- The `quality_factors` dict: name, boolean value, weight,
description — in insertion order. -/
def qualityFactorsScripts (i : Insights) : List (String × Bool × ℚ × String) :=
  [("hasTests", decide (i.testFiles.length > 0), 0.25,
     "Automated testing implementation"),
   ("hasDocumentation", decide (i.documentationFiles.length > 0), 0.15,
     "Project documentation"),
   ("hasGit", i.isGitRepo, 0.10, "Version control usage"),
   ("hasBuildSystem", decide (i.buildSystems.length > 0), 0.15,
     "Build system implementation"),
   ("moderateDependencies", decide (totalDeps i < 150), 0.10,
     "Reasonable dependency count"),
   ("hasFrameworks", decide (i.frameworks.length > 0), 0.10,
     "Modern framework usage"),
   ("goodFileOrganization",
     decide (i.totalFiles > 5) && decide (i.fileTypes.length > 2), 0.10,
     "File organization and structure"),
   ("hasTypeScript", i.technologies.contains "TypeScript", 0.05,
     "Type safety implementation")]

/-- Round-half-to-even on rationals (Python `round`'s tie-breaking). -/
def roundHalfEven (q : ℚ) : ℤ :=
  if q - ⌊q⌋ = (1 : ℚ) / 2 then (if Even ⌊q⌋ then ⌊q⌋ else ⌊q⌋ + 1)
  else round q

/-- Python `round(x, 1)` (on the exactly-representable values the quality
model produces). -/
def pyRound1 (q : ℚ) : ℚ := (roundHalfEven (q * 10) : ℚ) / 10

structure ComplexityMetrics where
  averageFileSize : ℚ
  averageLinesPerFile : ℚ
  dependencyDensity : ℚ

structure QualityMetrics where
  overallScore : ℚ
  maxScore : ℚ
  factors : List (String × Bool × String)
  complexity : ComplexityMetrics
  recommendations : List String

/-- The per-factor recommendation `if/elif` chain inside the loop over the
factor dict; factors without an arm contribute nothing. -/
def factorRecommendation (name : String) : List String :=
  match name with
  | "hasTests" => ["Implement automated testing with a testing framework"]
  | "hasDocumentation" => ["Add comprehensive project documentation"]
  | "hasGit" => ["Initialize Git repository for version control"]
  | "hasBuildSystem" => ["Implement a build system for consistent builds"]
  | "hasFrameworks" =>
      ["Consider adopting modern frameworks for better development experience"]
  | _ => []

/-- Python `total_weight`, `weighted_score` and
`quality_score = (weighted_score / total_weight) * 10`, rounded to one
decimal (`scripts/comprehensive_analyzer.py`, lines 1112-1117 and 1137). -/
def overallScoreOf (factors : List (String × Bool × ℚ × String)) : ℚ :=
  pyRound1 ((factors.map (fun f => f.2.2.1 * (if f.2.1 then 1 else 0))).sum /
    (factors.map (fun f => f.2.2.1)).sum * 10)

/-- The `quality_recommendations` loop (lines 1146-1158): iterate the
factor dict in order, appending the mapped recommendation of each failed
factor. -/
def recsOf (factors : List (String × Bool × ℚ × String)) : List String :=
  factors.foldl (fun acc f =>
    if f.2.1 then acc else acc ++ factorRecommendation f.1) []

/-- Python `calculate_quality_metrics` of the scripts analyzer. -/
def calculateQualityMetricsScripts (i : Insights) : QualityMetrics :=
  let factors := qualityFactorsScripts i
  let complexity : ComplexityMetrics :=
    { averageFileSize :=
        ((i.fileStructure.map (fun kv => (kv.2.size : ℚ))).sum) /
          (max i.fileStructure.length 1 : ℚ),
      averageLinesPerFile := (i.totalLinesOfCode : ℚ) /
          (max (i.fileStructure.countP (fun kv => kv.2.lines > 0)) 1 : ℚ),
      dependencyDensity := (totalDeps i : ℚ) /
          (max i.totalLinesOfCode 1 : ℚ) * 1000 }
  { overallScore := overallScoreOf factors,
    maxScore := 10,
    factors := factors.map (fun f => (f.1, f.2.1, f.2.2.2)),
    complexity := complexity,
    recommendations := recsOf factors }

/-! ### Assembled pipelines -/

/-- The scripts analyzer's `run_comprehensive_analysis` through the stages
the claims concern: scan, technology detection, dependency analysis,
project-type detection, git detection, quality metrics (insight
generation, the external AI call and the artifact write do not feed back
into these fields). -/
structure ScriptsAnalysis where
  scan : ScanState
  tech : TechSets
  deps : DepsResult
  projectType : String
  isGitRepo : Bool
  quality : QualityMetrics

def insightsOf (s : ScanState) (tech : TechSets) (deps : DepsResult)
    (git : Bool) : Insights :=
  { technologies := tech.technologies, frameworks := tech.frameworks,
    languages := tech.languages, buildSystems := tech.buildSystems,
    testingFrameworks := tech.testingFrameworks,
    totalFiles := s.fileCount, totalLinesOfCode := s.totalLines,
    fileTypes := s.fileTypes, dependencies := deps.dependencies,
    mainEntryPoints := s.mainEntryPoints, configFiles := s.configFiles,
    testFiles := s.testFiles, documentationFiles := s.documentationFiles,
    fileStructure := s.fileStructure, isGitRepo := git }

def analyzeScriptsPipeline (t : List Entry) (env : DepEnv)
    (projectName projectPath : String) : ScriptsAnalysis :=
  let s := scanScripts t
  let tech := detectTechnologiesScripts t s
  let deps := analyzeDependenciesScripts env t
  let ptype := detectProjectTypeScripts tech.technologies s.configFiles
    (s.fileStructure.map (fun kv => kv.1)) projectName projectPath
  let git := gitIsRepo t
  let quality := calculateQualityMetricsScripts (insightsOf s tech deps git)
  ⟨s, tech, deps, ptype, git, quality⟩

/-- The root analyzer's pipeline through the fields the determinism claim
names. -/
structure RootCore where
  totalFiles : Nat
  totalLinesOfCode : Nat
  technologies : List String
  frameworks : List String
  languages : List String
  buildSystems : List String
  testingFrameworks : List String
  dependencies : List (String × List (String × Json))

def analyzeRootCore (t : List Entry) (env : DepEnv) : RootCore :=
  let s := scanRoot t
  let tech := detectTechnologiesRoot t s
  let deps := analyzeDependenciesRoot env t
  ⟨s.fileCount, s.totalLines, tech.technologies, tech.frameworks,
   tech.languages, tech.buildSystems, tech.testingFrameworks,
   deps.dependencies⟩

/-! ### Chunked scanning -/

/-- Modelled from the spec: the chunked analysis endpoint (the Flask
`/analyze` route consuming `chunk_mode`/`chunk_size`/`chunk_index`) is not
among these sources — only its test driver `test_chunked_analysis.py`
is — so chunk selection follows spec section 4.7: over a deterministic,
sorted file ordering, a chunk request `(chunk_index, chunk_size)` selects
the slice `[chunk_index*chunk_size, (chunk_index+1)*chunk_size)`. -/
def chunkSlice (files : List String) (chunkIndex chunkSize : Nat) :
    List String :=
  (files.drop (chunkIndex * chunkSize)).take chunkSize

/-- Modelled from the spec: `ceil(N/K)` sequential chunk requests cover
the listing. -/
def numChunks (n k : Nat) : Nat := (n + k - 1) / k

/-- The concatenation of all chunks, in increasing index order. -/
def allChunks (files : List String) (chunkSize : Nat) : List String :=
  ((List.range (numChunks files.length chunkSize)).map
    (fun i => chunkSlice files i chunkSize)).flatten

/-! ## Theorems -/

lemma numChunks_zero (k : Nat) (hk : 0 < k) : numChunks 0 k = 0 := by
  unfold numChunks
  exact Nat.div_eq_of_lt (by omega)

lemma numChunks_le (n k : Nat) (_hk : 0 < k) (hn : 0 < n) (h : n ≤ k) :
    numChunks n k = 1 := by
  unfold numChunks
  exact Nat.div_eq_of_lt_le (by omega) (by omega)

lemma numChunks_succ (n k : Nat) (hk : 0 < k) (h : k < n) :
    numChunks n k = numChunks (n - k) k + 1 := by
  unfold numChunks
  have h1 : n + k - 1 = (n - k + k - 1) + k := by omega
  rw [h1, Nat.add_div_right _ hk]

lemma chunkSlice_succ (l : List String) (k i : Nat) :
    chunkSlice l (i + 1) k = chunkSlice (l.drop k) i k := by
  unfold chunkSlice
  rw [List.drop_drop]
  congr 2
  ring

/-- The chunks of a listing concatenate back to the listing. -/
lemma allChunks_eq (k : Nat) (hk : 0 < k) (l : List String) :
    allChunks l k = l := by
  generalize hn : l.length = n
  induction n using Nat.strong_induction_on generalizing l with
  | _ n ih =>
    match l with
    | [] => simp [allChunks, numChunks_zero k hk]
    | a :: as =>
      by_cases hle : (a :: as).length ≤ k
      · unfold allChunks
        rw [hn, numChunks_le n k hk (by simp [← hn]) (hn ▸ hle)]
        have hr1 : List.range 1 = [0] := rfl
        simp [chunkSlice, hr1, List.take_of_length_le hle]
      · push_neg at hle
        unfold allChunks
        rw [hn, numChunks_succ n k hk (hn ▸ hle), List.range_succ_eq_map]
        simp only [List.map_cons, List.map_map, List.flatten_cons]
        have h2 : ∀ i, chunkSlice (a :: as) (i + 1) k
            = chunkSlice ((a :: as).drop k) i k := fun i => chunkSlice_succ _ _ _
        have h3 : ((List.range (numChunks (n - k) k)).map
              ((fun i => chunkSlice (a :: as) i k) ∘ Nat.succ)).flatten
            = allChunks ((a :: as).drop k) k := by
          unfold allChunks
          congr 1
          rw [List.length_drop, hn]
          exact List.map_congr_left (fun i _ => h2 i)
        rw [h3, ih (n - k) (by omega) _ (by simp [hn])]
        simp [chunkSlice]

/-- C8: in chunked mode a chunk request `(chunk_index, chunk_size)` over a
stable sorted file ordering selects the slice
`[chunk_index*chunk_size, (chunk_index+1)*chunk_size)`, and for `N` files
and chunk size `K` the `ceil(N/K)` sequential chunk requests together
return exactly the `N` files, with no duplicates and no omissions. -/
theorem C8_chunk_coverage : ∀ (files : List String) (K : Nat), 0 < K →
    (∀ i : Nat, chunkSlice files i K = (files.take ((i + 1) * K)).drop (i * K)) ∧
    numChunks files.length K = (files.length + K - 1) / K ∧
    allChunks files K = files := by
  intro files K hK
  refine ⟨fun i => ?_, rfl, allChunks_eq K hK files⟩
  unfold chunkSlice
  rw [List.drop_take]
  congr 1
  have : (i + 1) * K = i * K + K := by ring
  omega

/-- Witness for C8 at a concrete listing. -/
theorem C8_chunk_coverage_witness :
    0 < 2 ∧ allChunks ["a", "b", "c"] 2 = ["a", "b", "c"] :=
  ⟨by decide, (C8_chunk_coverage ["a", "b", "c"] 2 (by decide)).2.2⟩

/-- Rounding `roundHalfEven` is the identity on integers. -/
lemma roundHalfEven_intCast (n : ℤ) : roundHalfEven (n : ℚ) = n := by
  unfold roundHalfEven
  rw [Int.floor_intCast]
  simp only [sub_self]
  rw [if_neg (by norm_num), round_intCast]

/-- Rounding `pyRound1` on a value whose tenfold is an integer. -/
lemma pyRound1_int (q : ℚ) (n : ℤ) (h : q * 10 = (n : ℚ)) :
    pyRound1 q = (n : ℚ) / 10 := by
  unfold pyRound1
  rw [h, roundHalfEven_intCast]

/-- With the weights summing to 1, the score formula reduces to the
weighted sum times ten, rounded. -/
lemma overallScoreOf_eq (fs : List (String × Bool × ℚ × String))
    (hW : (fs.map (fun f => f.2.2.1)).sum = 1) :
    overallScoreOf fs =
      pyRound1 ((fs.map (fun f => f.2.2.1 * (if f.2.1 then 1 else 0))).sum * 10) := by
  unfold overallScoreOf
  rw [hW, div_one]

lemma weightedSum_all_false (fs : List (String × Bool × ℚ × String))
    (h : ∀ f ∈ fs, f.2.1 = false) :
    (fs.map (fun f => f.2.2.1 * (if f.2.1 then 1 else 0))).sum = 0 := by
  induction fs with
  | nil => simp
  | cons g gs ih =>
      have hg := h g (by simp)
      simp only [List.map_cons, List.sum_cons, hg]
      rw [ih (fun f hf => h f (by simp [hf]))]
      simp

lemma weightedSum_all_true (fs : List (String × Bool × ℚ × String))
    (h : ∀ f ∈ fs, f.2.1 = true) :
    (fs.map (fun f => f.2.2.1 * (if f.2.1 then 1 else 0))).sum =
      (fs.map (fun f => f.2.2.1)).sum := by
  induction fs with
  | nil => simp
  | cons g gs ih =>
      have hg := h g (by simp)
      simp only [List.map_cons, List.sum_cons, hg]
      rw [ih (fun f hf => h f (by simp [hf]))]
      simp

lemma weightedSum_single (fs : List (String × Bool × ℚ × String))
    (f : String × Bool × ℚ × String) (hf : f ∈ fs) (ht : f.2.1 = true)
    (hnd : (fs.map (fun g => g.1)).Nodup)
    (hg : ∀ g ∈ fs, g.1 ≠ f.1 → g.2.1 = false) :
    (fs.map (fun f => f.2.2.1 * (if f.2.1 then 1 else 0))).sum = f.2.2.1 := by
  induction fs with
  | nil => simp at hf
  | cons g gs ih =>
      simp only [List.map_cons, List.nodup_cons] at hnd
      rcases List.mem_cons.1 hf with hfg | hfm
      · subst hfg
        have hrest : ∀ e ∈ gs, e.2.1 = false := by
          intro e he
          refine hg e (by simp [he]) ?_
          intro heq
          exact hnd.1 (heq ▸ List.mem_map_of_mem (fun g => g.1) he)
        simp only [List.map_cons, List.sum_cons, ht]
        rw [weightedSum_all_false gs hrest]
        simp
      · have hgf : g.1 ≠ f.1 := by
          intro heq
          exact hnd.1 (heq ▸ List.mem_map_of_mem (fun g => g.1) hfm)
        have hgfalse := hg g (by simp) hgf
        simp only [List.map_cons, List.sum_cons, hgfalse]
        rw [ih hfm hnd.2 (fun e he hne => hg e (by simp [he]) hne)]
        simp

/-- C1: the quality score equals the weighted sum over the eight boolean
factors (weight times indicator) multiplied by 10 and rounded to one
decimal place; the eight weights sum to 1; all factors false gives 0.0,
all true gives 10.0, and exactly one factor true with weight w gives
`w * 10` rounded to one decimal. -/
theorem C1_quality_score : ∀ i : Insights,
    ((qualityFactorsScripts i).map (fun f => f.2.2.1)).sum = 1 ∧
    (calculateQualityMetricsScripts i).overallScore =
      pyRound1 (((qualityFactorsScripts i).map
        (fun f => f.2.2.1 * (if f.2.1 then 1 else 0))).sum * 10) ∧
    ((∀ f ∈ qualityFactorsScripts i, f.2.1 = false) →
      (calculateQualityMetricsScripts i).overallScore = 0) ∧
    ((∀ f ∈ qualityFactorsScripts i, f.2.1 = true) →
      (calculateQualityMetricsScripts i).overallScore = 10) ∧
    (∀ f ∈ qualityFactorsScripts i, f.2.1 = true →
      (∀ g ∈ qualityFactorsScripts i, g.1 ≠ f.1 → g.2.1 = false) →
      (calculateQualityMetricsScripts i).overallScore = pyRound1 (f.2.2.1 * 10)) := by
  intro i
  have hre : (calculateQualityMetricsScripts i).overallScore
      = overallScoreOf (qualityFactorsScripts i) := rfl
  have hW : ((qualityFactorsScripts i).map (fun f => f.2.2.1)).sum = 1 := by
    simp only [qualityFactorsScripts, List.map_cons, List.map_nil,
      List.sum_cons, List.sum_nil]
    norm_num
  have hnd : ((qualityFactorsScripts i).map (fun g => g.1)).Nodup := by
    simp only [qualityFactorsScripts, List.map_cons, List.map_nil]
    simp
  refine ⟨hW, by rw [hre, overallScoreOf_eq _ hW], ?_, ?_, ?_⟩
  · intro h
    rw [hre, overallScoreOf_eq _ hW, weightedSum_all_false _ h,
      pyRound1_int _ 0 (by norm_num)]
    norm_num
  · intro h
    rw [hre, overallScoreOf_eq _ hW, weightedSum_all_true _ h, hW,
      pyRound1_int _ 100 (by norm_num)]
    norm_num
  · intro f hf ht hg
    rw [hre, overallScoreOf_eq _ hW, weightedSum_single _ f hf ht hnd hg]

/-- Concrete pipeline states exercising the quality-score boundaries. -/
def insAllTrueC1 : Insights :=
  { technologies := ["TypeScript"], frameworks := ["React"], languages := [],
    buildSystems := ["npm"], testingFrameworks := [], totalFiles := 6,
    totalLinesOfCode := 0,
    fileTypes := [(".py", 1), (".md", 1), (".js", 1)], dependencies := [],
    mainEntryPoints := [], configFiles := [], testFiles := ["test_a.py"],
    documentationFiles := ["README.md"], fileStructure := [], isGitRepo := true }

def insAllFalseC1 : Insights :=
  { technologies := [], frameworks := [], languages := [], buildSystems := [],
    testingFrameworks := [], totalFiles := 0, totalLinesOfCode := 0,
    fileTypes := [],
    dependencies := [("package.json", [("total_count", Json.num 150)])],
    mainEntryPoints := [], configFiles := [], testFiles := [],
    documentationFiles := [], fileStructure := [], isGitRepo := false }

def insOnlyGitC1 : Insights := { insAllFalseC1 with isGitRepo := true }

/-- Witness for C1 at the boundary states. -/
theorem C1_quality_score_witness :
    (calculateQualityMetricsScripts insAllFalseC1).overallScore = 0 ∧
    (calculateQualityMetricsScripts insAllTrueC1).overallScore = 10 ∧
    (calculateQualityMetricsScripts insOnlyGitC1).overallScore =
      pyRound1 (0.10 * 10) := by
  refine ⟨(C1_quality_score insAllFalseC1).2.2.1 (by decide),
    (C1_quality_score insAllTrueC1).2.2.2.1 (by decide), ?_⟩
  exact (C1_quality_score insOnlyGitC1).2.2.2.2
    ("hasGit", true, 0.10, "Version control usage")
    (by simp [qualityFactorsScripts, insOnlyGitC1, insAllFalseC1])
    (by decide) (by decide)

/-- C9 counterexample: a state whose only false factor is
`moderateDependencies` produces no recommendation at all, so it is not the
case that every false factor yields exactly one recommendation. -/
def insC9 : Insights :=
  { technologies := ["TypeScript"], frameworks := ["React"], languages := [],
    buildSystems := ["npm"], testingFrameworks := [], totalFiles := 6,
    totalLinesOfCode := 0,
    fileTypes := [(".py", 1), (".md", 1), (".js", 1)],
    dependencies := [("package.json", [("total_count", Json.num 150)])],
    mainEntryPoints := [], configFiles := [], testFiles := ["test_a.py"],
    documentationFiles := ["README.md"], fileStructure := [], isGitRepo := true }

/-- C9 counterexample: exactly one factor (`moderateDependencies`) is
false, yet the recommendation list is empty. -/
theorem C9_cex :
    (qualityFactorsScripts insC9).filter (fun f => !f.2.1) =
      [("moderateDependencies", false, 0.10, "Reasonable dependency count")] ∧
    (calculateQualityMetricsScripts insC9).recommendations = [] :=
  ⟨rfl, rfl⟩

/-- Function `recsOf` appends the mapped recommendation of every failed factor, in
order. -/
lemma recsOf_aux (fs : List (String × Bool × ℚ × String)) :
    ∀ acc, fs.foldl (fun acc f =>
        if f.2.1 then acc else acc ++ factorRecommendation f.1) acc =
      acc ++ (fs.filter (fun f => !f.2.1)).flatMap
        (fun f => factorRecommendation f.1) := by
  induction fs with
  | nil => intro acc; simp
  | cons g gs ih =>
      intro acc
      by_cases hg : g.2.1
      · simp only [List.foldl_cons, hg, if_pos, List.filter_cons,
          Bool.not_eq_true', hg]
        rw [ih acc]
        simp [hg]
      · simp only [List.foldl_cons, if_neg hg, List.filter_cons]
        rw [ih (acc ++ factorRecommendation g.1)]
        simp [hg, List.append_assoc]

/-- C9 (amended): the recommendations are the concatenation, in factor
declaration order, of the mapped recommendation of each false factor; the
mapping yields exactly one recommendation for each of `hasTests`,
`hasDocumentation`, `hasGit`, `hasBuildSystem` and `hasFrameworks`, and no
recommendation for `moderateDependencies`, `goodFileOrganization` or
`hasTypeScript`. -/
theorem C9_recommendations : ∀ i : Insights,
    (calculateQualityMetricsScripts i).recommendations =
      ((qualityFactorsScripts i).filter (fun f => !f.2.1)).flatMap
        (fun f => factorRecommendation f.1) ∧
    (∀ name ∈ ["hasTests", "hasDocumentation", "hasGit", "hasBuildSystem",
        "hasFrameworks"], (factorRecommendation name).length = 1) ∧
    (∀ name ∈ ["moderateDependencies", "goodFileOrganization", "hasTypeScript"],
      factorRecommendation name = []) := by
  intro i
  refine ⟨?_, by decide, by decide⟩
  have hre : (calculateQualityMetricsScripts i).recommendations
      = recsOf (qualityFactorsScripts i) := rfl
  rw [hre]
  unfold recsOf
  rw [recsOf_aux]
  simp

/-- Witness for C9's amended statement at a concrete state. -/
theorem C9_recommendations_witness :
    (calculateQualityMetricsScripts insC9).recommendations =
      ((qualityFactorsScripts insC9).filter (fun f => !f.2.1)).flatMap
        (fun f => factorRecommendation f.1) ∧
    (factorRecommendation "hasTests").length = 1 ∧
    factorRecommendation "hasTypeScript" = [] :=
  ⟨(C9_recommendations insC9).1,
   (C9_recommendations insC9).2.1 "hasTests" (by decide),
   (C9_recommendations insC9).2.2 "hasTypeScript" (by decide)⟩

/-! ### C3: the empty tree -/

/-- A concrete oracle environment: every external parse fails. -/
def oracleNone : DepEnv :=
  ⟨fun _ => none, fun _ => none, true, fun _ => [], fun _ => none⟩

/-- No project-type indicator occurs in the haystack built from an empty
scan and the given project name and path. -/
def noIndicatorHit (name path : String) : Bool :=
  typeIndicatorsScripts.all (fun ti => ti.2.all (fun ind =>
    !strContains (allIndicatorsScripts [] [] [] name path) (pyLower ind)))

/-- If no indicator hits, `detect_project_type` returns the generic
fallback label (the `"Unknown"` arm is unreachable: the score table is a
static non-empty literal). -/
lemma detectProjectType_noHit (techs configs fsKeys : List String)
    (name path : String)
    (h : ∀ ti ∈ typeIndicatorsScripts, ∀ ind ∈ ti.2,
      strContains (allIndicatorsScripts techs configs fsKeys name path)
        (pyLower ind) = false) :
    detectProjectTypeScripts techs configs fsKeys name path
      = "General Software Project" := by
  simp only [detectProjectTypeScripts]
  have hmap : typeIndicatorsScripts.map (fun ti =>
      (ti.1, ti.2.countP (fun ind =>
        strContains (allIndicatorsScripts techs configs fsKeys name path)
          (pyLower ind)))) =
      typeIndicatorsScripts.map (fun ti => (ti.1, 0)) := by
    apply List.map_congr_left
    intro ti hti
    have : ti.2.countP (fun ind =>
        strContains (allIndicatorsScripts techs configs fsKeys name path)
          (pyLower ind)) = 0 := by
      rw [List.countP_eq_zero]
      intro ind hind
      simp [h ti hti ind hind]
    rw [this]
  rw [hmap]
  rfl

/-- Scanning the empty tree leaves the initial state. -/
lemma scanScripts_nil : scanScripts [] = initScan := by
  rw [scanScripts, walkDir]
  simp [preScripts, walkSubdirs, filesPass]

set_option maxHeartbeats 2000000 in
/-- Technology detection over the empty scan state detects nothing (the
haystack is the single space `" "`, which no pattern matches). -/
lemma detectScripts_nil :
    detectTechnologiesScripts [] initScan = ⟨[], [], [], [], []⟩ := rfl

/-- With no manifest at the root, the dependency registry records
nothing. -/
lemma depsScripts_nil (env : DepEnv) :
    analyzeDependenciesScripts env [] = ⟨[], [], []⟩ := rfl

/-- The quality factors of the empty analysis: everything fails except the
vacuous `moderateDependencies`. -/
lemma qualityFactors_nil (env : DepEnv) :
    qualityFactorsScripts (insightsOf (scanScripts [])
      (detectTechnologiesScripts [] (scanScripts []))
      (analyzeDependenciesScripts env []) (gitIsRepo [])) =
      [("hasTests", false, 0.25, "Automated testing implementation"),
       ("hasDocumentation", false, 0.15, "Project documentation"),
       ("hasGit", false, 0.10, "Version control usage"),
       ("hasBuildSystem", false, 0.15, "Build system implementation"),
       ("moderateDependencies", true, 0.10, "Reasonable dependency count"),
       ("hasFrameworks", false, 0.10, "Modern framework usage"),
       ("goodFileOrganization", false, 0.10, "File organization and structure"),
       ("hasTypeScript", false, 5e-2, "Type safety implementation")] := by
  rw [scanScripts_nil, detectScripts_nil, depsScripts_nil]
  rfl

/-- The empty analysis scores exactly 1.0. -/
lemma overallScore_nil (env : DepEnv) (name path : String) :
    (analyzeScriptsPipeline [] env name path).quality.overallScore = 1 := by
  have hsc : (analyzeScriptsPipeline [] env name path).quality.overallScore
      = overallScoreOf (qualityFactorsScripts (insightsOf (scanScripts [])
        (detectTechnologiesScripts [] (scanScripts []))
        (analyzeDependenciesScripts env []) (gitIsRepo []))) := rfl
  rw [hsc, qualityFactors_nil, overallScoreOf_eq _ (by norm_num)]
  have hs : (([("hasTests", false, 0.25, "Automated testing implementation"),
     ("hasDocumentation", false, 0.15, "Project documentation"),
     ("hasGit", false, 0.10, "Version control usage"),
     ("hasBuildSystem", false, 0.15, "Build system implementation"),
     ("moderateDependencies", true, 0.10, "Reasonable dependency count"),
     ("hasFrameworks", false, 0.10, "Modern framework usage"),
     ("goodFileOrganization", false, 0.10, "File organization and structure"),
     ("hasTypeScript", false, 5e-2, "Type safety implementation")] :
      List (String × Bool × ℚ × String)).map
        (fun f => f.2.2.1 * (if f.2.1 then 1 else 0))).sum = 0.10 := by
    norm_num
  rw [hs, pyRound1_int _ 10 (by norm_num)]
  norm_num

/-- The empty scan records zero files and zero lines. -/
lemma scanTotals_nil (env : DepEnv) (name path : String) :
    (analyzeScriptsPipeline [] env name path).scan.fileCount = 0 ∧
    (analyzeScriptsPipeline [] env name path).scan.totalLines = 0 := by
  have h : (analyzeScriptsPipeline [] env name path).scan = scanScripts [] := rfl
  rw [h, scanScripts_nil]
  exact ⟨rfl, rfl⟩

/-- The pipeline's project type over the empty tree reduces to
`detect_project_type` on empty detected sets. -/
lemma projectType_nil (env : DepEnv) (name path : String) :
    (analyzeScriptsPipeline [] env name path).projectType
      = detectProjectTypeScripts [] [] [] name path := by
  have h : (analyzeScriptsPipeline [] env name path).projectType
      = detectProjectTypeScripts
          (detectTechnologiesScripts [] (scanScripts [])).technologies
          (scanScripts []).configFiles
          ((scanScripts []).fileStructure.map (fun kv => kv.1)) name path := rfl
  rw [h, scanScripts_nil, detectScripts_nil]
  rfl

set_option maxHeartbeats 1000000 in
/-- C3 counterexample: on the empty tree the analyzer returns the generic
fallback project type, not an "unknown" label, and the quality score is
1.0 (the `moderateDependencies` factor passes vacuously), not 0.0; the
totals are 0 as claimed. -/
theorem C3_cex :
    (analyzeScriptsPipeline [] oracleNone "proj" "/tmp/proj").scan.fileCount = 0 ∧
    (analyzeScriptsPipeline [] oracleNone "proj" "/tmp/proj").scan.totalLines = 0 ∧
    (analyzeScriptsPipeline [] oracleNone "proj" "/tmp/proj").projectType
      = "General Software Project" ∧
    ¬ (analyzeScriptsPipeline [] oracleNone "proj" "/tmp/proj").projectType
      = "Unknown" ∧
    (analyzeScriptsPipeline [] oracleNone "proj" "/tmp/proj").quality.overallScore
      = 1 ∧
    ¬ (analyzeScriptsPipeline [] oracleNone "proj" "/tmp/proj").quality.overallScore
      = 0 := by
  have hpt : (analyzeScriptsPipeline [] oracleNone "proj" "/tmp/proj").projectType
      = "General Software Project" := by
    rw [projectType_nil]
    decide
  have hone := overallScore_nil oracleNone "proj" "/tmp/proj"
  refine ⟨(scanTotals_nil oracleNone "proj" "/tmp/proj").1,
    (scanTotals_nil oracleNone "proj" "/tmp/proj").2, hpt, ?_, hone, ?_⟩
  · rw [hpt]; decide
  · rw [hone]; norm_num

/-- C3 (amended): for the empty tree the totals are 0, the project type is
the generic fallback `"General Software Project"` (whenever no type
indicator occurs in the project name/path haystack — the `"Unknown"` arm
is unreachable because the indicator table is static and non-empty), and
the overall quality score is 1.0, because the `moderateDependencies`
factor (weight 0.10) holds vacuously. -/
theorem C3_empty_tree : ∀ (env : DepEnv) (name path : String),
    noIndicatorHit name path = true →
    (analyzeScriptsPipeline [] env name path).scan.fileCount = 0 ∧
    (analyzeScriptsPipeline [] env name path).scan.totalLines = 0 ∧
    (analyzeScriptsPipeline [] env name path).projectType
      = "General Software Project" ∧
    (analyzeScriptsPipeline [] env name path).quality.overallScore = 1 := by
  intro env name path h
  simp only [noIndicatorHit, List.all_eq_true, Bool.not_eq_true'] at h
  refine ⟨(scanTotals_nil env name path).1, (scanTotals_nil env name path).2,
    ?_, overallScore_nil env name path⟩
  rw [projectType_nil]
  exact detectProjectType_noHit [] [] [] name path
    (fun ti hti ind hind => h ti hti ind hind)

/-- Witness for C3's amended statement at a concrete name and path. -/
theorem C3_empty_tree_witness :
    noIndicatorHit "proj" "/tmp/proj" = true ∧
    (analyzeScriptsPipeline [] oracleNone "proj" "/tmp/proj").projectType
      = "General Software Project" ∧
    (analyzeScriptsPipeline [] oracleNone "proj" "/tmp/proj").quality.overallScore
      = 1 :=
  ⟨by decide,
   (C3_empty_tree oracleNone "proj" "/tmp/proj" (by decide)).2.2.1,
   (C3_empty_tree oracleNone "proj" "/tmp/proj" (by decide)).2.2.2⟩

/-! ### C5: `total_count` of a parsed manifest -/

/-- C5: for a successfully read and parsed `package.json` whose
`dependencies`, `devDependencies` and `scripts` entries are objects, both
analyzer versions record
`total_count = |dependencies| + |devDependencies|`. -/
theorem C5_total_count :
    (∀ (jparse : String → Option Json) (f : FileNode)
        (fields ds dds scr : List (String × Json)),
      f.readOk = true →
      jparse f.content = some (Json.obj fields) →
      (fields.lookup "dependencies").getD (Json.obj []) = Json.obj ds →
      (fields.lookup "devDependencies").getD (Json.obj []) = Json.obj dds →
      (fields.lookup "scripts").getD (Json.obj []) = Json.obj scr →
      (analyzeNpmRoot jparse f).record.lookup "total_count"
        = some (Json.num (ds.length + dds.length))) ∧
    (∀ (jparse : String → Option Json) (f : FileNode)
        (fields ds dds scr : List (String × Json)),
      f.readOk = true →
      jparse f.content = some (Json.obj fields) →
      (fields.lookup "dependencies").getD (Json.obj []) = Json.obj ds →
      (fields.lookup "devDependencies").getD (Json.obj []) = Json.obj dds →
      (fields.lookup "scripts").getD (Json.obj []) = Json.obj scr →
      (analyzeNpmScripts jparse f).record.lookup "total_count"
        = some (Json.num (ds.length + dds.length))) := by
  constructor
  · intro jparse f fields ds dds scr hread hparse hds hdds hscr
    simp only [analyzeNpmRoot, analyzeNpmBodyRoot, readText, hread, if_pos,
      ofParse, hparse, pyGet, hds, hdds, hscr, pyLen, pyIn, wrapCatch,
      bind, Except.bind, pure, Except.pure]
    rfl
  · intro jparse f fields ds dds scr hread hparse hds hdds hscr
    simp only [analyzeNpmScripts, analyzeNpmBodyScripts, readText, hread, if_pos,
      ofParse, hparse, pyGet, hds, hdds, hscr, pyLen, pyIn, wrapCatch,
      bind, Except.bind, pure, Except.pure]
    rfl

def jparseC5 : String → Option Json := fun _ =>
  some (Json.obj
    [("dependencies", Json.obj [("a", Json.str "1")]),
     ("devDependencies", Json.obj [("b", Json.str "2"), ("c", Json.str "3")])])

def fileC5 : FileNode := ⟨"package.json", true, 1, 0, true, "x"⟩

/-- Witness for C5 at a concrete manifest with 1 + 2 dependencies. -/
theorem C5_total_count_witness :
    (analyzeNpmRoot jparseC5 fileC5).record.lookup "total_count"
      = some (Json.num 3) ∧
    (analyzeNpmScripts jparseC5 fileC5).record.lookup "total_count"
      = some (Json.num 3) :=
  ⟨C5_total_count.1 jparseC5 fileC5 _ [("a", Json.str "1")]
      [("b", Json.str "2"), ("c", Json.str "3")] [] rfl rfl rfl rfl rfl,
   C5_total_count.2 jparseC5 fileC5 _ [("a", Json.str "1")]
      [("b", Json.str "2"), ("c", Json.str "3")] [] rfl rfl rfl rfl rfl⟩

/-! ### C4: no dependency parser ever raises -/

/-- Catching means a parser either succeeded with its body's
result, or yields the empty output. -/
lemma wrapCatch_cases (e : Except Unit DepOut) :
    wrapCatch e = emptyDepOut ∨ ∃ r, e = .ok r ∧ wrapCatch e = r := by
  cases e with
  | ok r => exact Or.inr ⟨r, rfl, rfl⟩
  | error _ => exact Or.inl rfl

/-- Membership after a Python-style dict insertion. -/
lemma mem_dictInsert {α : Type} (d : List (String × α)) (k : String) (v : α)
    (p : String × α) (hp : p ∈ dictInsert d k v) : p ∈ d ∨ p = (k, v) := by
  unfold dictInsert at hp
  split at hp
  · rcases List.mem_map.1 hp with ⟨q, hq, heq⟩
    by_cases hqk : q.1 == k
    · right
      rw [← heq]
      simp [hqk]
    · left
      rw [← heq]
      simpa [hqk] using hq
  · rcases List.mem_append.1 hp with h | h
    · exact Or.inl h
    · right
      simpa using h

/-- Only nonempty records ever enter the dependencies map. -/
lemma runRegistry_nonempty (reg : List (String × (FileNode → DepOut)))
    (t : List Entry) :
    ∀ kv ∈ (runRegistry reg t).dependencies, kv.2 ≠ [] := by
  have aux : ∀ (reg : List (String × (FileNode → DepOut))) (acc : DepsResult),
      (∀ kv ∈ acc.dependencies, kv.2 ≠ []) →
      ∀ kv ∈ (reg.foldl (fun acc entry =>
        match rootFileFor t entry.1 with
        | some f =>
            let out := entry.2 f
            { acc with
              dependencies :=
                if !out.record.isEmpty then
                  dictInsert acc.dependencies entry.1 out.record
                else acc.dependencies,
              setup := acc.setup ++ out.setup,
              run := acc.run ++ out.run }
        | none => acc) acc).dependencies, kv.2 ≠ [] := by
    intro reg
    induction reg with
    | nil => intro acc h; exact h
    | cons e rest ih =>
        intro acc h
        simp only [List.foldl_cons]
        cases hrf : rootFileFor t e.1 with
        | none => exact ih acc h
        | some f =>
            apply ih
            intro kv hkv
            by_cases hrec : (e.2 f).record.isEmpty
            · simp only [hrec, Bool.not_true, if_neg, Bool.false_eq_true,
                not_false_eq_true] at hkv
              exact h kv hkv
            · simp only [hrec, Bool.not_false, if_pos] at hkv
              rcases mem_dictInsert _ _ _ kv hkv with hold | hnew
              · exact h kv hold
              · rw [hnew]
                simpa [List.isEmpty_iff] using hrec
  intro kv hkv
  exact aux reg ⟨[], [], []⟩ (by simp) kv hkv

/-- C4: every registered ecosystem parser of the root analyzer is a total
function that, on any manifest content (including unparseable content and
unreadable files), either returns its body's successful result or the
empty record — it never propagates an exception — and the registry walk
records only non-empty results, continuing past failed manifests. -/
theorem C4_parsers_never_raise :
    (∀ (env : DepEnv) (f : FileNode) (rootHas : String → Bool),
      (analyzeNpmRoot env.jparse f = emptyDepOut ∨
        ∃ r, analyzeNpmBodyRoot env.jparse f = .ok r ∧
          analyzeNpmRoot env.jparse f = r) ∧
      (analyzePipRoot rootHas f = emptyDepOut ∨
        ∃ r, analyzePipBodyRoot rootHas f = .ok r ∧
          analyzePipRoot rootHas f = r) ∧
      (analyzePoetryRoot env.hasTomllib env.tparse f = emptyDepOut ∨
        ∃ r, analyzePoetryBodyRoot env.tparse f = .ok r ∧
          analyzePoetryRoot env.hasTomllib env.tparse f = r) ∧
      (analyzeBundler f = emptyDepOut ∨
        ∃ r, analyzeBundlerBody f = .ok r ∧ analyzeBundler f = r) ∧
      (analyzeComposer env.jparse f = emptyDepOut ∨
        ∃ r, analyzeComposerBody env.jparse f = .ok r ∧
          analyzeComposer env.jparse f = r) ∧
      (analyzeMavenRoot env.mavenFindall f = emptyDepOut ∨
        ∃ r, analyzeMavenBodyRoot env.mavenFindall f = .ok r ∧
          analyzeMavenRoot env.mavenFindall f = r) ∧
      (analyzeGradleRoot env.gradleMatch f = emptyDepOut ∨
        ∃ r, analyzeGradleBodyRoot env.gradleMatch f = .ok r ∧
          analyzeGradleRoot env.gradleMatch f = r) ∧
      (analyzeCargoRoot env.hasTomllib env.tparse f = emptyDepOut ∨
        ∃ r, analyzeCargoBodyRoot env.tparse f = .ok r ∧
          analyzeCargoRoot env.hasTomllib env.tparse f = r) ∧
      (analyzeGoRoot f = emptyDepOut ∨
        ∃ r, analyzeGoBodyRoot f = .ok r ∧ analyzeGoRoot f = r)) ∧
    (∀ (env : DepEnv) (t : List Entry),
      ∀ kv ∈ (analyzeDependenciesRoot env t).dependencies, kv.2 ≠ []) := by
  constructor
  · intro env f rootHas
    refine ⟨wrapCatch_cases _, wrapCatch_cases _, ?_, wrapCatch_cases _,
      wrapCatch_cases _, wrapCatch_cases _, wrapCatch_cases _, ?_,
      wrapCatch_cases _⟩
    · unfold analyzePoetryRoot
      cases env.hasTomllib with
      | false => exact Or.inl rfl
      | true => exact wrapCatch_cases _
    · unfold analyzeCargoRoot
      cases env.hasTomllib with
      | false => exact Or.inl rfl
      | true => exact wrapCatch_cases _
  · intro env t
    exact runRegistry_nonempty _ t

/-! ### C7: `requirements.txt` line semantics -/

/-- Looking up the inserted key in the appended copy. -/
lemma lookup_append_new {α : Type} (k : String) (v : α) :
    ∀ (d : List (String × α)), d.any (fun p => p.1 == k) = false →
      (d ++ [(k, v)]).lookup k = some v := by
  intro d
  induction d with
  | nil => intro _; simp [List.lookup]
  | cons q qs ih =>
      intro hany
      simp only [List.any_cons, Bool.or_eq_false_iff] at hany
      have hk : (k == q.1) = false := by
        rw [beq_eq_false_iff_ne]
        intro h
        exact absurd (beq_iff_eq.mpr h.symm) (by simp [hany.1])
      simp only [List.cons_append, List.lookup, hk]
      exact ih hany.2

/-- Looking up the inserted key in the replaced copy. -/
lemma lookup_map_replace {α : Type} (k : String) (v : α) :
    ∀ (d : List (String × α)), d.any (fun p => p.1 == k) = true →
      (d.map (fun p => if p.1 == k then (k, v) else p)).lookup k = some v := by
  intro d
  induction d with
  | nil => intro h; simp at h
  | cons q qs ih =>
      intro hany
      simp only [List.map_cons]
      by_cases hq : q.1 = k
      · rw [if_pos (by simpa using hq)]
        simp [List.lookup]
      · rw [if_neg (by simpa using hq)]
        have hk : (k == q.1) = false := by
          rw [beq_eq_false_iff_ne]
          exact fun h => hq h.symm
        simp only [List.lookup, hk]
        apply ih
        simpa [hq] using hany

/-- Looking up the inserted key finds the inserted value. -/
lemma lookup_dictInsert {α : Type} (d : List (String × α)) (k : String) (v : α) :
    (dictInsert d k v).lookup k = some v := by
  unfold dictInsert
  cases hany : d.any (fun p => p.1 == k) with
  | false =>
      simp only [hany, Bool.false_eq_true, if_neg, not_false_eq_true]
      exact lookup_append_new k v d hany
  | true =>
      simp only [hany, if_pos]
      exact lookup_map_replace k v d hany

/-- C7: for a stripped, non-empty, non-comment requirements line: a line
containing `==` pins the name to the exact version; otherwise a line
containing `>=` maps the name to a `>=` lower bound; otherwise the bare
line maps to `"latest"` — and the inserted name looks up to exactly that
constraint. -/
theorem C7_pip_line : ∀ (d : List (String × String)) (rawLine : String),
    (¬ pyStrip rawLine = "" → pyStartsWith (pyStrip rawLine) "#" = false →
      ((strContains (pyStrip rawLine) "==" = true →
        pipStep d rawLine = dictInsert d
          (pyStrip (pySplit1 (pyStrip rawLine) "==").1)
          (pyStrip (pySplit1 (pyStrip rawLine) "==").2)) ∧
       (strContains (pyStrip rawLine) "==" = false →
        strContains (pyStrip rawLine) ">=" = true →
        pipStep d rawLine = dictInsert d
          (pyStrip (pySplit1 (pyStrip rawLine) ">=").1)
          (">=" ++ pyStrip (pySplit1 (pyStrip rawLine) ">=").2)) ∧
       (strContains (pyStrip rawLine) "==" = false →
        strContains (pyStrip rawLine) ">=" = false →
        pipStep d rawLine = dictInsert d (pyStrip rawLine) "latest"))) ∧
    (∀ (k v : String), (dictInsert d k v).lookup k = some v) := by
  intro d rawLine
  refine ⟨?_, fun k v => lookup_dictInsert d k v⟩
  intro hne hcm
  have hg : (!(pyStrip rawLine == "") && !pyStartsWith (pyStrip rawLine) "#") = true := by
    simp [hcm]
    exact hne
  refine ⟨?_, ?_, ?_⟩
  · intro heq
    simp only [pipStep, hg, if_pos, heq, if_true]
  · intro heq hge
    simp only [pipStep, hg, if_pos, heq, hge, Bool.false_eq_true, if_false, if_true]
  · intro heq hge
    simp only [pipStep, hg, if_pos, heq, hge, Bool.false_eq_true, if_false]

/-- Witness for C7 on the three line shapes. -/
theorem C7_pip_line_witness :
    pipStep [] "flask==2.0" = [("flask", "2.0")] ∧
    pipStep [] "requests>=2.1" = [("requests", ">=2.1")] ∧
    pipStep [] "numpy" = [("numpy", "latest")] ∧
    ([("flask", "2.0")].lookup "flask" : Option String) = some "2.0" :=
  ⟨(C7_pip_line [] "flask==2.0").1 (by decide) (by decide) |>.1 (by decide),
   (C7_pip_line [] "requests>=2.1").1 (by decide) (by decide) |>.2.1
     (by decide) (by decide),
   (C7_pip_line [] "numpy").1 (by decide) (by decide) |>.2.2
     (by decide) (by decide),
   (C7_pip_line [("flask", "2.0")] "x").2 "flask" "2.0" |>.symm ▸ rfl⟩

/-! ### C2: two-run determinism -/

/-- C2: re-running the root analyzer on an unchanged tree (and unchanged
external-library environment) reproduces identical `totalFiles` and
`totalLinesOfCode`, identical (order-insensitive) technology, framework
and language sets, and the identical dependency map. -/
theorem C2_two_run_determinism :
    ∀ (t₁ t₂ : List Entry) (env₁ env₂ : DepEnv), t₁ = t₂ → env₁ = env₂ →
    (analyzeRootCore t₁ env₁).totalFiles = (analyzeRootCore t₂ env₂).totalFiles ∧
    (analyzeRootCore t₁ env₁).totalLinesOfCode
      = (analyzeRootCore t₂ env₂).totalLinesOfCode ∧
    ((analyzeRootCore t₁ env₁).technologies : Multiset String)
      = ((analyzeRootCore t₂ env₂).technologies : Multiset String) ∧
    ((analyzeRootCore t₁ env₁).frameworks : Multiset String)
      = ((analyzeRootCore t₂ env₂).frameworks : Multiset String) ∧
    ((analyzeRootCore t₁ env₁).languages : Multiset String)
      = ((analyzeRootCore t₂ env₂).languages : Multiset String) ∧
    ((analyzeRootCore t₁ env₁).buildSystems : Multiset String)
      = ((analyzeRootCore t₂ env₂).buildSystems : Multiset String) ∧
    ((analyzeRootCore t₁ env₁).testingFrameworks : Multiset String)
      = ((analyzeRootCore t₂ env₂).testingFrameworks : Multiset String) ∧
    (analyzeRootCore t₁ env₁).dependencies
      = (analyzeRootCore t₂ env₂).dependencies := by
  rintro t₁ t₂ env₁ env₂ rfl rfl
  exact ⟨rfl, rfl, rfl, rfl, rfl, rfl, rfl, rfl⟩

/-- Witness for C2 at a concrete tree and environment. -/
theorem C2_two_run_determinism_witness :
    (analyzeRootCore [] oracleNone).totalFiles
      = (analyzeRootCore [] oracleNone).totalFiles ∧
    (analyzeRootCore [] oracleNone).dependencies
      = (analyzeRootCore [] oracleNone).dependencies :=
  ⟨(C2_two_run_determinism [] [] oracleNone oracleNone rfl rfl).1,
   (C2_two_run_determinism [] [] oracleNone oracleNone rfl rfl).2.2.2.2.2.2.2⟩

/-! ### C6: ignored entries contribute nothing to the scan -/

/-- One-step equations for the traversal. -/
lemma walkSubdirs_nil (pre : List String → ScanState → PreStep)
    (gate : String → Bool)
    (proc : List String → ScanState → FileNode → ScanState)
    (relDir : List String) (s : ScanState) :
    walkSubdirs pre gate proc relDir [] s = s := by
  rw [walkSubdirs]

lemma walkSubdirs_file (pre : List String → ScanState → PreStep)
    (gate : String → Bool)
    (proc : List String → ScanState → FileNode → ScanState)
    (relDir : List String) (f : FileNode) (rest : List Entry) (s : ScanState) :
    walkSubdirs pre gate proc relDir (.file f :: rest) s
      = walkSubdirs pre gate proc relDir rest s := by
  rw [walkSubdirs]

lemma walkSubdirs_dir (pre : List String → ScanState → PreStep)
    (gate : String → Bool)
    (proc : List String → ScanState → FileNode → ScanState)
    (relDir : List String) (n : String) (c : List Entry) (rest : List Entry)
    (s : ScanState) :
    walkSubdirs pre gate proc relDir (.dir n c :: rest) s
      = walkSubdirs pre gate proc relDir rest
          (if gate n then s else walkDir pre gate proc (relDir ++ [n]) c s) := by
  rw [walkSubdirs]

lemma walkDir_step (pre : List String → ScanState → PreStep)
    (gate : String → Bool)
    (proc : List String → ScanState → FileNode → ScanState)
    (relDir : List String) (es : List Entry) (s : ScanState) :
    walkDir pre gate proc relDir es s
      = match pre relDir s with
        | .skip s' => s'
        | .go s' => walkSubdirs pre gate proc relDir es (filesPass proc relDir es s') := by
  rw [walkDir]

/-- Remove exactly the files the walk would skip (`keep f = false`) and
the directories the walk would prune (`gate n = true`), recursively. -/
def pruneG (keep : FileNode → Bool) (gate : String → Bool) : List Entry → List Entry
  | [] => []
  | .file f :: rest =>
      (if keep f then [Entry.file f] else []) ++ pruneG keep gate rest
  | .dir n c :: rest =>
      (if gate n then [] else [Entry.dir n (pruneG keep gate c)]) ++
        pruneG keep gate rest
termination_by es => sizeOf es

/-- Skipped files contribute nothing to the files pass. -/
lemma filesPass_pruneG (gate : String → Bool)
    (proc : List String → ScanState → FileNode → ScanState)
    (keep : FileNode → Bool)
    (hskip : ∀ relDir s f, keep f = false → proc relDir s f = s) :
    ∀ (es : List Entry) (relDir : List String) (s : ScanState),
      filesPass proc relDir (pruneG keep gate es) s = filesPass proc relDir es s := by
  intro es
  induction es with
  | nil => intro relDir s; rw [pruneG]
  | cons e rest ih =>
      intro relDir s
      cases e with
      | file f =>
          by_cases hk : keep f
          · rw [pruneG, if_pos hk]
            simp only [List.singleton_append, filesPass, List.foldl_cons]
            exact ih relDir (proc relDir s f)
          · rw [pruneG, if_neg (by simp [hk]), List.nil_append]
            simp only [filesPass, List.foldl_cons]
            rw [hskip relDir s f (by simpa using hk)] at *
            exact ih relDir s
      | dir n c =>
          by_cases hg : gate n
          · rw [pruneG, if_pos hg, List.nil_append]
            simp only [filesPass, List.foldl_cons]
            exact ih relDir s
          · rw [pruneG, if_neg hg]
            simp only [List.singleton_append, filesPass, List.foldl_cons]
            exact ih relDir s

/-- The traversal of the pruned tree equals the traversal of the original
tree: ignored entries contribute nothing anywhere. -/
lemma walk_pruneG (pre : List String → ScanState → PreStep)
    (gate : String → Bool)
    (proc : List String → ScanState → FileNode → ScanState)
    (keep : FileNode → Bool)
    (hskip : ∀ relDir s f, keep f = false → proc relDir s f = s) :
    ∀ (n : Nat) (es : List Entry), sizeOf es ≤ n →
      (∀ (relDir : List String) (s : ScanState),
        walkSubdirs pre gate proc relDir (pruneG keep gate es) s
          = walkSubdirs pre gate proc relDir es s) ∧
      (∀ (relDir : List String) (s : ScanState),
        walkDir pre gate proc relDir (pruneG keep gate es) s
          = walkDir pre gate proc relDir es s) := by
  intro n
  induction n with
  | zero =>
      intro es h
      exfalso
      cases es <;> simp at h
  | succ n ih =>
      intro es hsz
      have Hsub : ∀ (relDir : List String) (s : ScanState),
          walkSubdirs pre gate proc relDir (pruneG keep gate es) s
            = walkSubdirs pre gate proc relDir es s := by
        intro relDir s
        cases es with
        | nil => rw [pruneG]
        | cons e rest =>
            have hrest : sizeOf rest ≤ n := by
              cases e <;> simp at hsz <;> omega
            cases e with
            | file f =>
                by_cases hk : keep f
                · rw [pruneG, if_pos hk]
                  simp only [List.singleton_append]
                  rw [walkSubdirs_file, walkSubdirs_file]
                  exact (ih rest hrest).1 relDir s
                · rw [pruneG, if_neg (by simp [hk]), List.nil_append,
                    walkSubdirs_file]
                  exact (ih rest hrest).1 relDir s
            | dir m c =>
                have hc : sizeOf c ≤ n := by
                  simp at hsz
                  omega
                by_cases hg : gate m
                · rw [pruneG, if_pos hg, List.nil_append, walkSubdirs_dir,
                    if_pos hg]
                  exact (ih rest hrest).1 relDir s
                · rw [pruneG, if_neg hg]
                  simp only [List.singleton_append]
                  rw [walkSubdirs_dir, walkSubdirs_dir, if_neg hg, if_neg hg]
                  rw [(ih c hc).2 (relDir ++ [m]) s]
                  exact (ih rest hrest).1 relDir _
      refine ⟨Hsub, ?_⟩
      intro relDir s
      rw [walkDir_step, walkDir_step]
      cases pre relDir s with
      | skip s' => rfl
      | go s' =>
          show walkSubdirs pre gate proc relDir (pruneG keep gate es)
              (filesPass proc relDir (pruneG keep gate es) s')
            = walkSubdirs pre gate proc relDir es (filesPass proc relDir es s')
          rw [filesPass_pruneG gate proc keep hskip es relDir s', Hsub]

/-- The file-skip rule and the directory-ignore rule of the root
analyzer. -/
def keepFileRoot (f : FileNode) : Bool := !fileSkipped ignorePatternsRoot f.name

/-- Remove from the tree exactly the files whose name contains a
non-wildcard ignore token and the subdirectories whose name is in the
ignore set, recursively. -/
def pruneIgnoredRoot (t : List Entry) : List Entry :=
  pruneG keepFileRoot (ignorePatternsRoot.contains ·) t

/-- A skipped file is dropped by the very first guard of the per-file
body. -/
lemma processFileRoot_skipped (relDir : List String) (s : ScanState)
    (f : FileNode) (h : keepFileRoot f = false) :
    processFileRoot relDir s f = s := by
  unfold processFileRoot
  rw [if_pos (by simpa [keepFileRoot] using h)]

/-- C6: the root analyzer's scan of any tree equals its scan of the tree
with every exactly-matching ignored subdirectory pruned and every file
whose name contains a non-wildcard ignore token removed — such entries
contribute to none of the scan outputs (`totalFiles`, `fileTypes`,
`fileStructure`, and all classified file lists); and a file is skipped
precisely when some ignore pattern without a `*` occurs as a substring of
its name. -/
theorem C6_ignore_pruning :
    (∀ t : List Entry, scanRoot (pruneIgnoredRoot t) = scanRoot t) ∧
    (∀ name : String, fileSkipped ignorePatternsRoot name = true ↔
      ∃ p ∈ ignorePatternsRoot, strContains p "*" = false ∧
        strContains name p = true) := by
  constructor
  · intro t
    exact (walk_pruneG preRoot (ignorePatternsRoot.contains ·) processFileRoot
      keepFileRoot processFileRoot_skipped (sizeOf t) t le_rfl).2 [] initScan
  · intro name
    simp [fileSkipped, List.any_eq_true]

/-! ### C10: recorded paths are relative to the project root -/

/-- A well-formed filesystem name: non-empty and without a path
separator. -/
def validName (n : String) : Bool := !(n == "") && !strContains n "/"

/-- Every name in the tree is a well-formed filesystem name. -/
def validTree : List Entry → Bool
  | [] => true
  | .file f :: rest => validName f.name && validTree rest
  | .dir n c :: rest => validName n && validTree c && validTree rest
termination_by es => sizeOf es

/-- The snapshot path fields the claim names, in one list. -/
def recordedPaths (s : ScanState) : List String :=
  s.configFiles ++ s.mainEntryPoints ++ s.testFiles ++
    s.documentationFiles ++ s.fileStructure.map (fun kv => kv.1)

/-- The relative path of every file position in the tree. -/
def allRelPaths (relDir : List String) : List Entry → List String
  | [] => []
  | .file f :: rest => joinPath relDir f.name :: allRelPaths relDir rest
  | .dir n c :: rest =>
      allRelPaths (relDir ++ [n]) c ++ allRelPaths relDir rest
termination_by es => sizeOf es

lemma allRelPaths_nil (relDir : List String) : allRelPaths relDir [] = [] := by
  rw [allRelPaths]

lemma allRelPaths_file (relDir : List String) (f : FileNode) (rest : List Entry) :
    allRelPaths relDir (.file f :: rest)
      = joinPath relDir f.name :: allRelPaths relDir rest := by
  rw [allRelPaths]

lemma allRelPaths_dir (relDir : List String) (n : String) (c rest : List Entry) :
    allRelPaths relDir (.dir n c :: rest)
      = allRelPaths (relDir ++ [n]) c ++ allRelPaths relDir rest := by
  rw [allRelPaths]

/-- A valid name cannot begin a string with a slash. -/
lemma valid_head_no_slash (x : String) (hx : validName x = true) (ys : List Char) :
    List.isPrefixOf ['/'] (x.data ++ ys) = false := by
  unfold validName at hx
  simp only [Bool.and_eq_true, Bool.not_eq_true'] at hx
  obtain ⟨hne, hnc⟩ := hx
  cases hd : x.data with
  | nil =>
      exfalso
      have hx0 : x = "" := by
        cases x with
        | mk d => exact congrArg String.mk hd
      rw [hx0] at hne
      simp at hne
  | cons c cs =>
      by_cases hc : c = '/'
      · exfalso
        have : strContains x "/" = true := by
          unfold strContains subList
          refine List.any_eq_true.2 ⟨0, List.mem_range.2 (by omega), ?_⟩
          simp [hd, hc, List.isPrefixOf]
        rw [this] at hnc
        simp at hnc
      · have hcb : ('/' == c) = false := by
          rw [beq_eq_false_iff_ne]
          exact fun h => hc h.symm
        simp [List.isPrefixOf, hcb]

/-- A path joined from a valid head component never starts with `"/"`. -/
lemma joinComps_not_abs (xs : List String) (x : String) (hx : validName x = true) :
    pyStartsWith (joinComps (x :: xs)) "/" = false := by
  cases xs with
  | nil =>
      show pyStartsWith x "/" = false
      unfold pyStartsWith
      have := valid_head_no_slash x hx []
      simpa using this
  | cons y ys =>
      show pyStartsWith (x ++ "/" ++ joinComps (y :: ys)) "/" = false
      unfold pyStartsWith
      have hdata : (x ++ "/" ++ joinComps (y :: ys)).data
          = x.data ++ ("/".data ++ (joinComps (y :: ys)).data) := by
        simp [String.data_append]
      rw [hdata]
      exact valid_head_no_slash x hx _

/-- No relative path of a valid tree is absolute. -/
lemma allRelPaths_not_abs :
    ∀ (N : Nat) (es : List Entry), sizeOf es ≤ N →
    ∀ (relDir : List String), validTree es = true →
      relDir.all validName = true →
      ∀ p ∈ allRelPaths relDir es, pyStartsWith p "/" = false := by
  intro N
  induction N with
  | zero =>
      intro es h
      exfalso
      cases es <;> simp at h
  | succ N ih =>
      intro es hsz relDir hv hrd p hp
      cases es with
      | nil => rw [allRelPaths_nil] at hp; simp at hp
      | cons e rest =>
          have hrest : sizeOf rest ≤ N := by
            cases e <;> simp at hsz <;> omega
          cases e with
          | file f =>
              rw [allRelPaths_file] at hp
              rw [validTree] at hv
              simp only [Bool.and_eq_true] at hv
              rcases List.mem_cons.1 hp with heq | hm
              · subst heq
                unfold joinPath
                cases relDir with
                | nil => exact joinComps_not_abs [] f.name hv.1
                | cons c cs =>
                    simp only [List.all_cons, Bool.and_eq_true] at hrd
                    exact joinComps_not_abs (cs ++ [f.name]) c hrd.1
              · exact ih rest hrest relDir hv.2 hrd p hm
          | dir m c =>
              rw [allRelPaths_dir] at hp
              rw [validTree] at hv
              simp only [Bool.and_eq_true] at hv
              have hc : sizeOf c ≤ N := by simp at hsz; omega
              rcases List.mem_append.1 hp with hm | hm
              · refine ih c hc (relDir ++ [m]) hv.1.2 ?_ p hm
                simp [List.all_append, hrd, hv.1.1]
              · exact ih rest hrest relDir hv.2 hrd p hm

/-- The key set after a dict insertion is the old key set plus the
inserted key. -/
lemma mem_fst_dictInsert_iff {α : Type} (d : List (String × α)) (k : String)
    (v : α) (x : String) :
    (x ∈ (dictInsert d k v).map (fun kv => kv.1)) ↔
      x ∈ d.map (fun kv => kv.1) ∨ x = k := by
  unfold dictInsert
  cases hany : d.any (fun p => p.1 == k) with
  | false =>
      simp only [hany, Bool.false_eq_true, if_neg, not_false_eq_true,
        List.map_append, List.mem_append]
      simp
  | true =>
      simp only [hany, if_pos]
      constructor
      · intro hx
        rcases List.mem_map.1 hx with ⟨q, hq, hqe⟩
        rcases List.mem_map.1 hq with ⟨r, hr, hre⟩
        by_cases hrk : (r.1 == k) = true
        · right
          rw [← hqe, ← hre, if_pos hrk]
        · left
          rw [← hqe, ← hre, if_neg hrk]
          exact List.mem_map_of_mem (fun kv => kv.1) hr
      · intro hx
        rcases hx with hx | hx
        · rcases List.mem_map.1 hx with ⟨r, hr, hre⟩
          by_cases hrk : (r.1 == k) = true
          · refine List.mem_map.2 ⟨(k, v), List.mem_map.2 ⟨r, hr, if_pos hrk⟩, ?_⟩
            rw [← hre]
            exact (beq_iff_eq.1 hrk).symm
          · exact List.mem_map.2 ⟨r, List.mem_map.2 ⟨r, hr, if_neg hrk⟩, hre⟩
        · rcases List.any_eq_true.1 hany with ⟨r, hr, hrk⟩
          refine List.mem_map.2 ⟨(k, v), List.mem_map.2 ⟨r, hr, if_pos hrk⟩, hx.symm⟩

/-- One update step at most adds the path `rel` to the recorded paths. -/
def AddsOnly (rel : String) (step : ScanState → ScanState) : Prop :=
  ∀ (s : ScanState) (p : String), p ∈ recordedPaths (step s) →
    p ∈ recordedPaths s ∨ p = rel

lemma addsOnly_recordFileType (rel ext : String) :
    AddsOnly rel (recordFileType ext) := by
  intro s p hp
  exact Or.inl hp

lemma addsOnly_recordImportant (important : List String) (f : FileNode)
    (rel : String) : AddsOnly rel (recordImportant important f rel) := by
  intro s p hp
  unfold recordImportant at hp
  split_ifs at hp
  · simp only [recordedPaths, List.mem_append, List.mem_singleton] at hp ⊢
    tauto
  · exact Or.inl hp

lemma addsOnly_recordEntryPoint (f : FileNode) (rel : String) :
    AddsOnly rel (recordEntryPoint f rel) := by
  intro s p hp
  unfold recordEntryPoint at hp
  split_ifs at hp
  · simp only [recordedPaths, List.mem_append, List.mem_singleton] at hp ⊢
    tauto
  · exact Or.inl hp

lemma addsOnly_recordTest (isTest : Bool) (rel : String) :
    AddsOnly rel (recordTest isTest rel) := by
  intro s p hp
  unfold recordTest at hp
  split_ifs at hp
  · simp only [recordedPaths, List.mem_append, List.mem_singleton] at hp ⊢
    tauto
  · exact Or.inl hp

lemma addsOnly_recordDoc (isDoc : Bool) (rel : String) :
    AddsOnly rel (recordDoc isDoc rel) := by
  intro s p hp
  unfold recordDoc at hp
  split_ifs at hp
  · simp only [recordedPaths, List.mem_append, List.mem_singleton] at hp ⊢
    tauto
  · exact Or.inl hp

lemma addsOnly_recordAnalyzed (rel ext : String) (f : FileNode) :
    AddsOnly rel (recordAnalyzed rel ext f) := by
  intro s p hp
  unfold recordAnalyzed at hp
  split_ifs at hp
  · simp only [recordedPaths, List.mem_append, List.mem_singleton,
      mem_fst_dictInsert_iff] at hp ⊢
    tauto
  · exact Or.inl hp
  · exact Or.inl hp

lemma addsOnly_comp (rel : String) (g h : ScanState → ScanState)
    (hg : AddsOnly rel g) (hh : AddsOnly rel h) :
    AddsOnly rel (fun s => g (h s)) := by
  intro s p hp
  rcases hg (h s) p hp with hm | hm
  · exact hh s p hm
  · exact Or.inr hm

/-- A single per-file step only records the file's own relative path. -/
lemma processFileScripts_paths (relDir : List String) (s : ScanState)
    (f : FileNode) (p : String)
    (hp : p ∈ recordedPaths (processFileScripts relDir s f)) :
    p ∈ recordedPaths s ∨ p = joinPath relDir f.name := by
  unfold processFileScripts at hp
  split_ifs at hp
  · exact Or.inl hp
  · exact Or.inl hp
  · refine addsOnly_comp _ _ _ (addsOnly_recordAnalyzed _ _ f)
      (addsOnly_comp _ _ _ (addsOnly_recordDoc _ _)
        (addsOnly_comp _ _ _ (addsOnly_recordTest _ _)
          (addsOnly_comp _ _ _ (addsOnly_recordEntryPoint f _)
            (addsOnly_comp _ _ _ (addsOnly_recordImportant _ f _)
              (addsOnly_recordFileType _ _))))) s p hp

/-- A single per-file step only records the file's own relative path
(root analyzer). -/
lemma processFileRoot_paths (relDir : List String) (s : ScanState)
    (f : FileNode) (p : String)
    (hp : p ∈ recordedPaths (processFileRoot relDir s f)) :
    p ∈ recordedPaths s ∨ p = joinPath relDir f.name := by
  unfold processFileRoot at hp
  split_ifs at hp
  · exact Or.inl hp
  · exact Or.inl hp
  · refine addsOnly_comp _ _ _ (addsOnly_recordAnalyzed _ _ f)
      (addsOnly_comp _ _ _ (addsOnly_recordDoc _ _)
        (addsOnly_comp _ _ _ (addsOnly_recordTest _ _)
          (addsOnly_comp _ _ _ (addsOnly_recordEntryPoint f _)
            (addsOnly_comp _ _ _ (addsOnly_recordImportant _ f _)
              (addsOnly_recordFileType _ _))))) s p hp

/-- The state a pre-loop step hands on. -/
def preState : PreStep → ScanState
  | .skip s => s
  | .go s => s

/-- Neither pre-loop step touches any path field. -/
lemma preRoot_paths (relDir : List String) (s : ScanState) :
    recordedPaths (preState (preRoot relDir s)) = recordedPaths s := by
  unfold preRoot
  split_ifs <;> rfl

lemma preScripts_paths (relDir : List String) (s : ScanState) :
    recordedPaths (preState (preScripts relDir s)) = recordedPaths s := rfl

/-- The files pass only records relative paths of the listed files. -/
lemma filesPass_paths (proc : List String → ScanState → FileNode → ScanState)
    (hrec : ∀ relDir s f p, p ∈ recordedPaths (proc relDir s f) →
      p ∈ recordedPaths s ∨ p = joinPath relDir f.name) :
    ∀ (es : List Entry) (relDir : List String) (s : ScanState) (p : String),
      p ∈ recordedPaths (filesPass proc relDir es s) →
      p ∈ recordedPaths s ∨ p ∈ allRelPaths relDir es := by
  intro es
  induction es with
  | nil => intro relDir s p hp; exact Or.inl hp
  | cons e rest ih =>
      intro relDir s p hp
      cases e with
      | file f =>
          simp only [filesPass, List.foldl_cons] at hp
          rcases ih relDir (proc relDir s f) p hp with hm | hm
          · rcases hrec relDir s f p hm with hm' | hm'
            · exact Or.inl hm'
            · right
              rw [allRelPaths_file, hm']
              exact List.mem_cons_self _ _
          · right
            rw [allRelPaths_file]
            exact List.mem_cons_of_mem _ hm
      | dir n c =>
          simp only [filesPass, List.foldl_cons] at hp
          rcases ih relDir s p hp with hm | hm
          · exact Or.inl hm
          · right
            rw [allRelPaths_dir]
            exact List.mem_append_right _ hm

/-- The whole traversal only records relative paths of tree positions. -/
lemma walk_paths (pre : List String → ScanState → PreStep)
    (gate : String → Bool)
    (proc : List String → ScanState → FileNode → ScanState)
    (hpre : ∀ relDir s, recordedPaths (preState (pre relDir s)) = recordedPaths s)
    (hrec : ∀ relDir s f p, p ∈ recordedPaths (proc relDir s f) →
      p ∈ recordedPaths s ∨ p = joinPath relDir f.name) :
    ∀ (N : Nat) (es : List Entry), sizeOf es ≤ N →
      (∀ (relDir : List String) (s : ScanState) (p : String),
        p ∈ recordedPaths (walkSubdirs pre gate proc relDir es s) →
        p ∈ recordedPaths s ∨ p ∈ allRelPaths relDir es) ∧
      (∀ (relDir : List String) (s : ScanState) (p : String),
        p ∈ recordedPaths (walkDir pre gate proc relDir es s) →
        p ∈ recordedPaths s ∨ p ∈ allRelPaths relDir es) := by
  intro N
  induction N with
  | zero =>
      intro es h
      exfalso
      cases es <;> simp at h
  | succ N ih =>
      intro es hsz
      have Hsub : ∀ (relDir : List String) (s : ScanState) (p : String),
          p ∈ recordedPaths (walkSubdirs pre gate proc relDir es s) →
          p ∈ recordedPaths s ∨ p ∈ allRelPaths relDir es := by
        intro relDir s p hp
        cases es with
        | nil => rw [walkSubdirs_nil] at hp; exact Or.inl hp
        | cons e rest =>
            have hrest : sizeOf rest ≤ N := by
              cases e <;> simp at hsz <;> omega
            cases e with
            | file f =>
                rw [walkSubdirs_file] at hp
                rcases (ih rest hrest).1 relDir s p hp with hm | hm
                · exact Or.inl hm
                · right
                  rw [allRelPaths_file]
                  exact List.mem_cons_of_mem _ hm
            | dir m c =>
                have hc : sizeOf c ≤ N := by simp at hsz; omega
                rw [walkSubdirs_dir] at hp
                rcases (ih rest hrest).1 relDir _ p hp with hm | hm
                · by_cases hg : gate m
                  · rw [if_pos hg] at hm
                    exact Or.inl hm
                  · rw [if_neg hg] at hm
                    rcases (ih c hc).2 (relDir ++ [m]) s p hm with hm' | hm'
                    · exact Or.inl hm'
                    · right
                      rw [allRelPaths_dir]
                      exact List.mem_append_left _ hm'
                · right
                  rw [allRelPaths_dir]
                  exact List.mem_append_right _ hm
      refine ⟨Hsub, ?_⟩
      intro relDir s p hp
      rw [walkDir_step] at hp
      cases hps : pre relDir s with
      | skip s' =>
          rw [hps] at hp
          have := hpre relDir s
          rw [hps] at this
          simp only [preState] at this
          rw [this] at hp
          exact Or.inl hp
      | go s' =>
          rw [hps] at hp
          simp only at hp
          rcases Hsub relDir _ p hp with hm | hm
          · rcases filesPass_paths proc hrec es relDir s' p hm with hm' | hm'
            · have := hpre relDir s
              rw [hps] at this
              simp only [preState] at this
              rw [this] at hm'
              exact Or.inl hm'
            · exact Or.inr hm'
          · exact Or.inr hm

set_option maxHeartbeats 1000000 in
/-- C10: every path recorded in `fileStructure`, `configFiles`,
`mainEntryPoints`, `testFiles` and `documentationFiles` by either
analyzer's scan is the relative path of a file position of the scanned
tree, and (for well-formed filesystem names) never an absolute path. -/
theorem C10_relative_paths : ∀ t : List Entry, validTree t = true →
    (∀ p ∈ recordedPaths (scanRoot t),
      p ∈ allRelPaths [] t ∧ pyStartsWith p "/" = false) ∧
    (∀ p ∈ recordedPaths (scanScripts t),
      p ∈ allRelPaths [] t ∧ pyStartsWith p "/" = false) := by
  intro t hv
  have habs := allRelPaths_not_abs (sizeOf t) t le_rfl [] hv rfl
  constructor
  · intro p hp
    have := (walk_paths preRoot (ignorePatternsRoot.contains ·) processFileRoot
      preRoot_paths processFileRoot_paths (sizeOf t) t le_rfl).2 [] initScan p hp
    rcases this with hm | hm
    · simp [recordedPaths, initScan] at hm
    · exact ⟨hm, habs p hm⟩
  · intro p hp
    have := (walk_paths preScripts (ignorePatternsScripts.contains ·)
      processFileScripts preScripts_paths processFileScripts_paths
      (sizeOf t) t le_rfl).2 [] initScan p hp
    rcases this with hm | hm
    · simp [recordedPaths, initScan] at hm
    · exact ⟨hm, habs p hm⟩

def treeC10 : List Entry :=
  [Entry.file ⟨"a.py", true, 3, 0, true, "x=1"⟩,
   Entry.file ⟨"b.md", true, 4, 0, true, "hi"⟩]

/-- Witness for C10 at a concrete tree: the recorded documentation file
`"b.md"` is a relative path of the tree and is not absolute. -/
theorem C10_relative_paths_witness :
    validTree treeC10 = true ∧
    "b.md" ∈ allRelPaths [] treeC10 ∧
    pyStartsWith "b.md" "/" = false := by
  have hv : validTree treeC10 = true := by
    simp only [treeC10, validTree]
    decide
  have hscan : scanScripts treeC10
      = filesPass processFileScripts [] treeC10 initScan := by
    rw [scanScripts, walkDir_step]
    show walkSubdirs preScripts (ignorePatternsScripts.contains ·)
        processFileScripts [] treeC10
        (filesPass processFileScripts [] treeC10 initScan)
      = filesPass processFileScripts [] treeC10 initScan
    rw [treeC10, walkSubdirs_file, walkSubdirs_file, walkSubdirs_nil]
  have hmem : "b.md" ∈ recordedPaths (scanScripts treeC10) := by
    rw [hscan]
    decide
  have h := (C10_relative_paths treeC10 hv).2 "b.md" hmem
  exact ⟨hv, h.1, h.2⟩

end Leviatan
